import Mathlib

/-!
# Kvantum: `Style::standardIcon` (style/standardIcons.cpp)

A shallow embedding of the standard-icon dispatch routine of the Kvantum
style.  The routine is toolkit glue: everything it calls (the icon theme, the
painter, the SVG renderer, `QCommonStyle`) lives outside the translated file,
so those operations are fields of the record `Style`, over abstract carrier
types `Icon` and `Pixmap`.  The routine itself, its switch, its conditions and
the names it builds are translated line by line.

Conventions
* a C++ pointer that may be null is an `Option`;
* `qreal` is modelled by exact rationals and `int` by `Int`.  This idealises
  the one numeric computation of the file, the side `s` of the pixmaps (a
  product of doubles rounded by `qRound` to a 32-bit `int`): the properties
  below use `s` as the side the routine computed and none of them depends on
  its value;
* every call of `renderElement`, `QIcon::hasThemeIcon` and `QIcon::fromTheme`
  made by the routine is recorded, in order, together with its outcome.
-/

namespace Kvantum

/-! ## Toolkit enumerations and value types -/

/-- Qt: `QStyle::StandardPixmap`.  The named enumerators are those of Qt 6;
`SP_Custom n` stands for the value `SP_CustomBase + n` a style may be asked
for. -/
inductive StandardPixmap where
  | SP_TitleBarMenuButton
  | SP_TitleBarMinButton
  | SP_TitleBarMaxButton
  | SP_TitleBarCloseButton
  | SP_TitleBarNormalButton
  | SP_TitleBarShadeButton
  | SP_TitleBarUnshadeButton
  | SP_TitleBarContextHelpButton
  | SP_DockWidgetCloseButton
  | SP_MessageBoxInformation
  | SP_MessageBoxWarning
  | SP_MessageBoxCritical
  | SP_MessageBoxQuestion
  | SP_DesktopIcon
  | SP_TrashIcon
  | SP_ComputerIcon
  | SP_DriveFDIcon
  | SP_DriveHDIcon
  | SP_DriveCDIcon
  | SP_DriveDVDIcon
  | SP_DriveNetIcon
  | SP_DirOpenIcon
  | SP_DirClosedIcon
  | SP_DirLinkIcon
  | SP_DirLinkOpenIcon
  | SP_FileIcon
  | SP_FileLinkIcon
  | SP_ToolBarHorizontalExtensionButton
  | SP_ToolBarVerticalExtensionButton
  | SP_FileDialogStart
  | SP_FileDialogEnd
  | SP_FileDialogToParent
  | SP_FileDialogNewFolder
  | SP_FileDialogDetailedView
  | SP_FileDialogInfoView
  | SP_FileDialogContentsView
  | SP_FileDialogListView
  | SP_FileDialogBack
  | SP_DirIcon
  | SP_DialogOkButton
  | SP_DialogCancelButton
  | SP_DialogHelpButton
  | SP_DialogOpenButton
  | SP_DialogSaveButton
  | SP_DialogCloseButton
  | SP_DialogApplyButton
  | SP_DialogResetButton
  | SP_DialogDiscardButton
  | SP_DialogYesButton
  | SP_DialogNoButton
  | SP_ArrowUp
  | SP_ArrowDown
  | SP_ArrowLeft
  | SP_ArrowRight
  | SP_ArrowBack
  | SP_ArrowForward
  | SP_DirHomeIcon
  | SP_CommandLink
  | SP_VistaShield
  | SP_BrowserReload
  | SP_BrowserStop
  | SP_MediaPlay
  | SP_MediaStop
  | SP_MediaPause
  | SP_MediaSkipForward
  | SP_MediaSkipBackward
  | SP_MediaSeekForward
  | SP_MediaSeekBackward
  | SP_MediaVolume
  | SP_MediaVolumeMuted
  | SP_LineEditClearButton
  | SP_DialogYesToAllButton
  | SP_DialogNoToAllButton
  | SP_DialogSaveAllButton
  | SP_DialogAbortButton
  | SP_DialogRetryButton
  | SP_DialogIgnoreButton
  | SP_RestoreDefaultsButton
  | SP_TabCloseButton
  | NStandardPixmap
  | SP_Custom (n : Nat)
  deriving Repr

namespace StandardPixmap

/-- Qt: `SP_CustomBase`. -/
def SP_CustomBase : Nat := 0xf0000000

/-- The integer value of an enumerator, as the Qt header assigns it. -/
def toNat : StandardPixmap → Nat
  | .SP_TitleBarMenuButton => 0
  | .SP_TitleBarMinButton => 1
  | .SP_TitleBarMaxButton => 2
  | .SP_TitleBarCloseButton => 3
  | .SP_TitleBarNormalButton => 4
  | .SP_TitleBarShadeButton => 5
  | .SP_TitleBarUnshadeButton => 6
  | .SP_TitleBarContextHelpButton => 7
  | .SP_DockWidgetCloseButton => 8
  | .SP_MessageBoxInformation => 9
  | .SP_MessageBoxWarning => 10
  | .SP_MessageBoxCritical => 11
  | .SP_MessageBoxQuestion => 12
  | .SP_DesktopIcon => 13
  | .SP_TrashIcon => 14
  | .SP_ComputerIcon => 15
  | .SP_DriveFDIcon => 16
  | .SP_DriveHDIcon => 17
  | .SP_DriveCDIcon => 18
  | .SP_DriveDVDIcon => 19
  | .SP_DriveNetIcon => 20
  | .SP_DirOpenIcon => 21
  | .SP_DirClosedIcon => 22
  | .SP_DirLinkIcon => 23
  | .SP_DirLinkOpenIcon => 24
  | .SP_FileIcon => 25
  | .SP_FileLinkIcon => 26
  | .SP_ToolBarHorizontalExtensionButton => 27
  | .SP_ToolBarVerticalExtensionButton => 28
  | .SP_FileDialogStart => 29
  | .SP_FileDialogEnd => 30
  | .SP_FileDialogToParent => 31
  | .SP_FileDialogNewFolder => 32
  | .SP_FileDialogDetailedView => 33
  | .SP_FileDialogInfoView => 34
  | .SP_FileDialogContentsView => 35
  | .SP_FileDialogListView => 36
  | .SP_FileDialogBack => 37
  | .SP_DirIcon => 38
  | .SP_DialogOkButton => 39
  | .SP_DialogCancelButton => 40
  | .SP_DialogHelpButton => 41
  | .SP_DialogOpenButton => 42
  | .SP_DialogSaveButton => 43
  | .SP_DialogCloseButton => 44
  | .SP_DialogApplyButton => 45
  | .SP_DialogResetButton => 46
  | .SP_DialogDiscardButton => 47
  | .SP_DialogYesButton => 48
  | .SP_DialogNoButton => 49
  | .SP_ArrowUp => 50
  | .SP_ArrowDown => 51
  | .SP_ArrowLeft => 52
  | .SP_ArrowRight => 53
  | .SP_ArrowBack => 54
  | .SP_ArrowForward => 55
  | .SP_DirHomeIcon => 56
  | .SP_CommandLink => 57
  | .SP_VistaShield => 58
  | .SP_BrowserReload => 59
  | .SP_BrowserStop => 60
  | .SP_MediaPlay => 61
  | .SP_MediaStop => 62
  | .SP_MediaPause => 63
  | .SP_MediaSkipForward => 64
  | .SP_MediaSkipBackward => 65
  | .SP_MediaSeekForward => 66
  | .SP_MediaSeekBackward => 67
  | .SP_MediaVolume => 68
  | .SP_MediaVolumeMuted => 69
  | .SP_LineEditClearButton => 70
  | .SP_DialogYesToAllButton => 71
  | .SP_DialogNoToAllButton => 72
  | .SP_DialogSaveAllButton => 73
  | .SP_DialogAbortButton => 74
  | .SP_DialogRetryButton => 75
  | .SP_DialogIgnoreButton => 76
  | .SP_RestoreDefaultsButton => 77
  | .SP_TabCloseButton => 78
  | .NStandardPixmap => 79
  | .SP_Custom n => SP_CustomBase + n

/-- C++ compares enumerators by their integer values. -/
instance : BEq StandardPixmap := ⟨fun a b => a.toNat == b.toNat⟩

end StandardPixmap

/-- Qt: `Qt::LayoutDirection`. -/
inductive LayoutDirection where
  | LeftToRight
  | RightToLeft
  | LayoutDirectionAuto
  deriving DecidableEq, Repr

/-- Qt: `QPalette::ColorGroup`. -/
inductive ColorGroup where
  | Active
  | Disabled
  | Inactive
  deriving DecidableEq, Repr

/-- Qt: `QPalette::ColorRole` (the roles this file reads, and two more). -/
inductive ColorRole where
  | WindowText
  | Text
  | Window
  | Base
  deriving DecidableEq, Repr

/-- Qt: `QColor`, an RGBA value that may be invalid. -/
structure QColor where
  valid : Bool
  r : Nat
  g : Nat
  b : Nat
  a : Nat
  deriving DecidableEq, Repr

/-- Qt: `QPalette`, read through `color(group, role)`. -/
structure QPalette where
  color : ColorGroup → ColorRole → QColor

/-- Qt: `QSize`. -/
structure QSize where
  width : Int
  height : Int
  deriving DecidableEq, Repr

/-- Qt: `QRect(x, y, w, h)`. -/
structure QRect where
  x : Int
  y : Int
  w : Int
  h : Int
  deriving DecidableEq, Repr

/-- Qt: `QIcon::Mode`. -/
inductive IconMode where
  | Normal
  | Disabled
  | Active
  | Selected
  deriving DecidableEq, Repr

/-- Qt: `QIcon::State`. -/
inductive IconState where
  | On
  | Off
  deriving DecidableEq, Repr

/-- Kvantum: the `KvIconMode` argument of `getPixmapFromIcon`. -/
inductive KvIconMode where
  | Normal
  | Selected
  | Active
  | Disabled
  | DisabledSelected
  deriving DecidableEq, Repr

/-- Qt: `QStyle::PixelMetric` (the two metrics this file asks for). -/
inductive PixelMetric where
  | PM_SmallIconSize
  | PM_TitleBarButtonIconSize
  deriving DecidableEq, Repr

/-- Qt: `QStyle::State_Enabled`. -/
def State_Enabled : Nat := 0x00000001
/-- Qt: `QStyle::State_Sunken`. -/
def State_Sunken : Nat := 0x00000004
/-- Qt: `QStyle::State_MouseOver`. -/
def State_MouseOver : Nat := 0x00002000

/-- Qt: what the routine reads of a `QStyleOption`: `direction`, the `state`
flags, `palette`, and whether `qstyleoption_cast<const QStyleOptionButton*>`
succeeds on it. -/
structure QStyleOption where
  direction : LayoutDirection
  state : Nat
  palette : QPalette
  isButton : Bool

/-- Qt: what the routine reads of a `QWidget`: the results of
`qobject_cast` to `QMdiSubWindow` and `QDockWidget`, `layoutDirection()`,
`isEnabled()`, `palette()`, and the device pixel ratio of
`window()->windowHandle()` (`none` when there is no window handle). -/
structure QWidget where
  isMdiSubWindow : Bool
  isDockWidget : Bool
  layoutDirection : LayoutDirection
  isEnabled : Bool
  palette : QPalette
  windowHandleRatio : Option ℚ

/-- Kvantum: the fields of `indicator_spec` the routine reads. -/
structure indicator_spec where
  element : String
  size : Int
  deriving DecidableEq, Repr

/-- Kvantum: the fields of `label_spec` the routine reads. -/
structure label_spec where
  normalColor : String
  focusColor : String
  deriving DecidableEq, Repr

/-- Kvantum: the field of `hacks_spec` the routine reads. -/
structure hacks_spec where
  style_vertical_toolbars : Bool
  deriving DecidableEq, Repr

/-- Qt: what the routine asks of the `QSvgRenderer` behind `themeRndr_`. -/
structure ThemeRenderer where
  isValid : Bool
  elementExists : String → Bool

/-! ## The style object and its surroundings -/

/-- One recorded call of the routine into the renderer or the icon theme,
with what the call reported. -/
inductive Call where
  /-- `renderElement(&painter, element, bounds)` returned `ok`. -/
  | renderElement (element : String) (bounds : QRect) (ok : Bool)
  /-- `QIcon::hasThemeIcon(name)` returned `found`. -/
  | hasThemeIcon (name : String) (found : Bool)
  /-- `QIcon::fromTheme(name)` or `QIcon::fromTheme(name, fallback)` returned
  an icon whose `isNull()` is `null`. -/
  | fromTheme (name : String) (null : Bool)
  deriving DecidableEq, Repr

/-- The `Style` object together with the toolkit around it: each field is an
operation that `standardIcons.cpp` calls and that is defined elsewhere (Qt, or
other files of Kvantum). -/
structure Style (Icon Pixmap : Type) where
  /-- Qt: `qApp->devicePixelRatio()`. -/
  appDevicePixelRatio : ℚ
  /-- Qt: `QApplication::layoutDirection()`. -/
  appLayoutDirection : LayoutDirection
  /-- Qt: `QIcon()`. -/
  nullIcon : Icon
  /-- Qt: `QIcon::isNull()`. -/
  isNull : Icon → Bool
  /-- Qt: a default-constructed icon is null. -/
  isNull_nullIcon : isNull nullIcon = true
  /-- Qt: `QIcon::hasThemeIcon(name)`. -/
  hasThemeIcon : String → Bool
  /-- Qt: `QIcon::fromTheme(name)`. -/
  fromTheme : String → Icon
  /-- Qt: `QIcon::fromTheme(name, fallback)`. -/
  fromThemeOr : String → Icon → Icon
  /-- Qt: `QIcon::availableSizes(mode, state)`. -/
  availableSizes : Icon → IconMode → IconState → List QSize
  /-- Qt: `QIcon(const QPixmap &)`. -/
  iconOfPixmap : Pixmap → Icon
  /-- Qt: `QIcon::pixmap(size, devicePixelRatio)`. -/
  iconPixmap : Icon → QSize → ℚ → Pixmap
  /-- Qt: the icon after `QIcon::addPixmap(pixmap)`. -/
  addPixmap : Icon → Pixmap → Icon
  /-- Qt: `QPixmap pm(size); pm.fill(Qt::transparent);`. -/
  transparentPixmap : QSize → Pixmap
  /-- Qt: the pixmap after `QPainter(&base).drawPixmap(x, y, src)`. -/
  drawPixmap : Pixmap → Int → Int → Pixmap → Pixmap
  /-- Qt: `QCommonStyle::standardIcon(standardIcon, option, widget)`. -/
  commonStandardIcon : StandardPixmap → Option QStyleOption → Option QWidget → Icon
  /-- Kvantum: the member `themeRndr_` (a pointer, possibly null). -/
  themeRndr_ : Option ThemeRenderer
  /-- Kvantum: the member `hspec_`. -/
  hspec_ : hacks_spec
  /-- Kvantum: `getIndicatorSpec(name)`. -/
  getIndicatorSpec : String → indicator_spec
  /-- Kvantum: `getLabelSpec(name)`. -/
  getLabelSpec : String → label_spec
  /-- Kvantum: `getFromRGBA(str)`. -/
  getFromRGBA : String → QColor
  /-- Kvantum: `enoughContrast(col1, col2)`. -/
  enoughContrast : QColor → QColor → Bool
  /-- Kvantum: `standardPalette()`. -/
  standardPalette : QPalette
  /-- Kvantum: `isStylableToolbar(widget)`. -/
  isStylableToolbar : QWidget → Bool
  /-- Kvantum: `mergedToolbarHeight(widget)`. -/
  mergedToolbarHeight : QWidget → Int
  /-- Kvantum: `renderElement(&painter, element, bounds)` with a painter on
  the given pixmap: `none` when it returns `false` (nothing is painted),
  `some pm` with the painted pixmap when it returns `true`. -/
  renderElement : Pixmap → String → QRect → Option Pixmap
  /-- Kvantum: `pixelMetric(metric, option, widget)`. -/
  pixelMetric : PixelMetric → Option QStyleOption → Option QWidget → Int
  /-- Kvantum: `getPixmapFromIcon(icon, iconmode, iconstate, iconSize)`. -/
  getPixmapFromIcon : Icon → KvIconMode → IconState → QSize → Pixmap

/-- What a call of `Style::standardIcon` produces: the icon returned and the
calls made on the way, in order. -/
structure Outcome (Icon : Type) where
  icon : Icon
  calls : List Call

/-- Qt: `qRound(qreal d)`, `d >= 0.0 ? int(d + 0.5) : int(d - 0.5)`; the
conversion to `int` truncates towards zero.  Idealised: the argument is an
exact rational and the result an unbounded integer, where the program has a
double and a 32-bit `int`. -/
def qRound (d : ℚ) : Int :=
  if 0 ≤ d then Int.floor (d + 1 / 2) else Int.ceil (d - 1 / 2)

/-- Qt: `qobject_cast<const QMdiSubWindow*>(widget)` is non-null. -/
def isMdiSubWindow (widget : Option QWidget) : Bool :=
  match widget with
  | some w => w.isMdiSubWindow
  | none => false

/-- Qt: `qobject_cast<const QDockWidget*>(widget)` is non-null. -/
def isDockWidget (widget : Option QWidget) : Bool :=
  match widget with
  | some w => w.isDockWidget
  | none => false

/-- The conditional expression written three times in the file:
`(state & State_Enabled) ? (state & State_Sunken) ? "pressed" :
 (state & State_MouseOver) ? "focused" : "normal" : "disabled"`. -/
def stateStatus (state : Nat) : String :=
  if state &&& State_Enabled != 0 then
    if state &&& State_Sunken != 0 then "pressed"
    else if state &&& State_MouseOver != 0 then "focused" else "normal"
  else "disabled"

namespace Style

variable {Icon Pixmap : Type}

/-- Lines 36-38: the device pixel ratio of the widget's window handle, or the
application's, raised to at least 1. -/
def pixelRatio (S : Style Icon Pixmap) (widget : Option QWidget) : ℚ :=
  let win : Option ℚ :=
    match widget with
    | some w => w.windowHandleRatio
    | none => none
  let pixelRatio : ℚ :=
    match win with
    | some r => r
    | none => S.appDevicePixelRatio
  max pixelRatio 1

/-- Lines 39-40: `rtl`. -/
def rtl (S : Style Icon Pixmap) (option : Option QStyleOption) : Bool :=
  match option with
  | some o => o.direction == LayoutDirection.RightToLeft
  | none => S.appLayoutDirection == LayoutDirection.RightToLeft

/-- The condition written in four cases of the switch:
`option == nullptr && qobject_cast<const QMdiSubWindow*>(widget)
 && enoughContrast(getFromRGBA(getLabelSpec("MenuItem").normalColor),
                   getFromRGBA(getLabelSpec("TitleBar").focusColor))`. -/
def noMenuIcon (S : Style Icon Pixmap) (option : Option QStyleOption)
    (widget : Option QWidget) : Bool :=
  option.isNone && isMdiSubWindow widget
    && S.enoughContrast (S.getFromRGBA (S.getLabelSpec "MenuItem").normalColor)
         (S.getFromRGBA (S.getLabelSpec "TitleBar").focusColor)

/-- The statement that ends every rendered case:
`if (renderElement(&painter, element, bounds)) return QIcon(pm); else break;`
with the painter on `pm` (`none` stands for `break`). -/
def renderOrBreak (S : Style Icon Pixmap) (pm : Pixmap) (element : String) (bounds : QRect) :
    List Call × Option Icon :=
  match S.renderElement pm element bounds with
  | some pm => ([Call.renderElement element bounds true], some (S.iconOfPixmap pm))
  | none => ([Call.renderElement element bounds false], none)

/-- The body written for every plain themed kind:
`QIcon icn = QIcon::fromTheme(name); if (!icn.isNull()) return icn; else break;`
(`none` stands for `break`). -/
def themed (S : Style Icon Pixmap) (name : String) : List Call × Option Icon :=
  let icn := S.fromTheme name
  ([Call.fromTheme name (S.isNull icn)], if !S.isNull icn then some icn else none)

/-- The body written for the kinds with a second theme name:
`QIcon icn = QIcon::fromTheme(name, QIcon::fromTheme(other));
 if (!icn.isNull()) return icn; else break;`
(the argument is evaluated before the call). -/
def themedOr (S : Style Icon Pixmap) (name other : String) : List Call × Option Icon :=
  let fallback := S.fromTheme other
  let icn := S.fromThemeOr name fallback
  ([Call.fromTheme other (S.isNull fallback), Call.fromTheme name (S.isNull icn)],
   if !S.isNull icn then some icn else none)

/-- Lines 402-410 (and 421-429): the loop over the available sizes of the
base icon; `icn` is the variable the loop reads and extends. -/
def linkLoop (S : Style Icon Pixmap) (baseIcon : Icon) (pixelRatio : ℚ) :
    List QSize → Icon → Icon
  | [], icn => icn
  | sz :: sizes, icn =>
    let size := sz.width
    let basePixmap := S.iconPixmap baseIcon ⟨size, size⟩ pixelRatio
    let linkPixmap := S.iconPixmap icn ⟨Int.tdiv size 2, Int.tdiv size 2⟩ pixelRatio
    let basePixmap := S.drawPixmap basePixmap (Int.tdiv size 2) (Int.tdiv size 2) linkPixmap
    linkLoop S baseIcon pixelRatio sizes (S.addPixmap icn basePixmap)

/-- The body of `case SP_FileLinkIcon` and of `case SP_DirLinkIcon`, which
differ in the base kind only. -/
def linkIcon (S : Style Icon Pixmap) (base : StandardPixmap)
    (option : Option QStyleOption) (widget : Option QWidget) : List Call × Option Icon :=
  let icn := S.fromTheme "emblem-symbolic-link"
  ([Call.fromTheme "emblem-symbolic-link" (S.isNull icn)],
   if !S.isNull icn then
     let baseIcon := S.commonStandardIcon base option widget
     let sizes := S.availableSizes baseIcon IconMode.Normal IconState.Off
     some (S.linkLoop baseIcon (S.pixelRatio widget) sizes icn)
   else none)

/-- Lines 42-80, `case SP_ToolBarHorizontalExtensionButton`. -/
def toolBarHorizontalExtensionButton (S : Style Icon Pixmap)
    (option : Option QStyleOption) (widget : Option QWidget) : List Call × Option Icon :=
  let pixelRatio := S.pixelRatio widget
  let dspec := S.getIndicatorSpec "IndicatorArrow"
  let s := qRound (pixelRatio * pixelRatio * (dspec.size : ℚ))
  let pm := S.transparentPixmap ⟨s, s⟩
  let element : String :=
    match S.themeRndr_ with
    | some themeRndr =>
      if themeRndr.isValid then
        let col : QColor :=
          match widget with
          | none => S.getFromRGBA (S.getLabelSpec "Toolbar").normalColor
          | some w =>
            if S.isStylableToolbar w || decide (S.mergedToolbarHeight w > 0) then
              S.getFromRGBA (S.getLabelSpec "Toolbar").normalColor
            else S.getFromRGBA (S.getLabelSpec "MenuBar").normalColor
        if S.enoughContrast col (S.standardPalette.color ColorGroup.Active ColorRole.WindowText)
            && themeRndr.elementExists ("flat-" ++ dspec.element ++ "-down-normal") then
          "flat-" ++ dspec.element
        else dspec.element
      else dspec.element
    | none => dspec.element
  S.renderOrBreak pm (element ++ (if S.rtl option then "-left" else "-right") ++ "-normal")
      ⟨0, 0, s, s⟩

/-- Lines 81-100, `case SP_ToolBarVerticalExtensionButton`. -/
def toolBarVerticalExtensionButton (S : Style Icon Pixmap)
    (widget : Option QWidget) : List Call × Option Icon :=
  let pixelRatio := S.pixelRatio widget
  let dspec := S.getIndicatorSpec "IndicatorArrow"
  let s := qRound (pixelRatio * pixelRatio * (dspec.size : ℚ))
  let pm := S.transparentPixmap ⟨s, s⟩
  let element : String :=
    if S.hspec_.style_vertical_toolbars
        && (match S.themeRndr_ with
            | some themeRndr => themeRndr.isValid
            | none => false)
        && S.enoughContrast (S.getFromRGBA (S.getLabelSpec "Toolbar").normalColor)
             (S.standardPalette.color ColorGroup.Active ColorRole.WindowText) then
      "flat-" ++ dspec.element
    else dspec.element
  S.renderOrBreak pm (element ++ "-down-normal")
      ⟨0, 0, s, s⟩

/-- Lines 102-112 of `case SP_LineEditClearButton`: the name chosen from the
direction, and the icon `icn` obtained for it or for `edit-clear`. -/
def lineEditClearLookup (S : Style Icon Pixmap)
    (option : Option QStyleOption) (widget : Option QWidget) : List Call × Icon :=
  let rtl := S.rtl option
  let str : String :=
    if (match option with
        | some _ => rtl
        | none =>
          match widget with
          | some w => w.layoutDirection == LayoutDirection.RightToLeft
          | none => rtl)
    then "edit-clear-locationbar-ltr" else "edit-clear-locationbar-rtl"
  if S.hasThemeIcon str then
    ([Call.hasThemeIcon str true, Call.fromTheme str (S.isNull (S.fromTheme str))],
     S.fromTheme str)
  else
    let str' := "edit-clear"
    if S.hasThemeIcon str' then
      ([Call.hasThemeIcon str false, Call.hasThemeIcon str' true,
        Call.fromTheme str' (S.isNull (S.fromTheme str'))],
       S.fromTheme str')
    else ([Call.hasThemeIcon str false, Call.hasThemeIcon str' false], S.nullIcon)

/-- Lines 101-132, `case SP_LineEditClearButton`. -/
def lineEditClearButton (S : Style Icon Pixmap)
    (option : Option QStyleOption) (widget : Option QWidget) : List Call × Option Icon :=
  let found := S.lineEditClearLookup option widget
  let icn := found.2
  (found.1,
   if !S.isNull icn then
     -- `if (option || widget)`: the colour and the enabled flag come from the
     -- option when there is one and from the widget otherwise
     let other : Option (QColor × Bool) :=
       match option, widget with
       | some o, _ =>
         some (o.palette.color ColorGroup.Active ColorRole.Text, o.state &&& State_Enabled != 0)
       | none, some w => some (w.palette.color ColorGroup.Active ColorRole.Text, w.isEnabled)
       | none, none => none
     match other with
     | some (col, enabled) =>
       if S.enoughContrast (S.standardPalette.color ColorGroup.Active ColorRole.Text) col then
         let s := S.pixelMetric PixelMetric.PM_SmallIconSize none none
         let px := S.getPixmapFromIcon icn
           (if enabled then KvIconMode.Selected else KvIconMode.DisabledSelected)
           IconState.On ⟨s, s⟩
         some (S.iconOfPixmap px)
       else some icn
     | none => some icn
   else none)

/-- The side `s` computed at the head of every title-bar and dock case:
`qRound(pixelMetric(PM_TitleBarButtonIconSize, option, widget)*pixelRatio*pixelRatio)`
(the product is exact here, a product of doubles in the program). -/
def titleBarButtonSide (S : Style Icon Pixmap)
    (option : Option QStyleOption) (widget : Option QWidget) : Int :=
  qRound ((S.pixelMetric PixelMetric.PM_TitleBarButtonIconSize option widget : ℚ)
    * S.pixelRatio widget * S.pixelRatio widget)

/-- Lines 133-158, `case SP_TitleBarMinButton`. -/
def titleBarMinButton (S : Style Icon Pixmap)
    (option : Option QStyleOption) (widget : Option QWidget) : List Call × Option Icon :=
  let s := S.titleBarButtonSide option widget
  let pm := S.transparentPixmap ⟨s, s⟩
  if S.noMenuIcon option widget then ([], some (S.iconOfPixmap pm))
  else
    let status : String :=
      match option with
      | some o => stateStatus o.state
      | none => "normal"
    S.renderOrBreak pm ((S.getIndicatorSpec "TitleBar").element ++ "-minimize-" ++ status)
      ⟨0, 0, s, s⟩

/-- Lines 159-174, `case SP_TitleBarMaxButton`. -/
def titleBarMaxButton (S : Style Icon Pixmap)
    (option : Option QStyleOption) (widget : Option QWidget) : List Call × Option Icon :=
  let s := S.titleBarButtonSide option widget
  let pm := S.transparentPixmap ⟨s, s⟩
  if S.noMenuIcon option widget then ([], some (S.iconOfPixmap pm))
  else
    S.renderOrBreak pm ((S.getIndicatorSpec "TitleBar").element ++ "-maximize-normal")
      ⟨0, 0, s, s⟩

/-- Lines 197-211 (and 244-255): the optional attempt on the Dock element,
the attempt on the TitleBar element when nothing was rendered, and the
return or break that follows. -/
def dockThenTitleBar (S : Style Icon Pixmap) (pm : Pixmap) (s : Int) (tryDock : Bool)
    (dockElement titleBarElement : String) : List Call × Option Icon :=
  if tryDock then
    match S.renderElement pm dockElement ⟨0, 0, s, s⟩ with
    | some pm => ([Call.renderElement dockElement ⟨0, 0, s, s⟩ true], some (S.iconOfPixmap pm))
    | none =>
      match S.renderElement pm titleBarElement ⟨0, 0, s, s⟩ with
      | some pm =>
        ([Call.renderElement dockElement ⟨0, 0, s, s⟩ false,
          Call.renderElement titleBarElement ⟨0, 0, s, s⟩ true], some (S.iconOfPixmap pm))
      | none =>
        ([Call.renderElement dockElement ⟨0, 0, s, s⟩ false,
          Call.renderElement titleBarElement ⟨0, 0, s, s⟩ false], none)
  else S.renderOrBreak pm titleBarElement ⟨0, 0, s, s⟩

/-- Lines 175-212, `case SP_DockWidgetCloseButton: case SP_TitleBarCloseButton`. -/
def closeButton (S : Style Icon Pixmap) (standardIcon : StandardPixmap)
    (option : Option QStyleOption) (widget : Option QWidget) : List Call × Option Icon :=
  let s := S.titleBarButtonSide option widget
  let pm := S.transparentPixmap ⟨s, s⟩
  if standardIcon == StandardPixmap.SP_TitleBarCloseButton && S.noMenuIcon option widget then
    ([], some (S.iconOfPixmap pm))
  else
    let status : String :=
      match option with
      | some o => if o.isButton then stateStatus o.state else "normal"
      | none => "normal"
    S.dockThenTitleBar pm s
      (standardIcon == StandardPixmap.SP_DockWidgetCloseButton || isDockWidget widget)
      ((S.getIndicatorSpec "Dock").element ++ "-close")
      ((S.getIndicatorSpec "TitleBar").element ++ "-close-" ++ status)

/-- Lines 213-223, `case SP_TitleBarMenuButton`. -/
def titleBarMenuButton (S : Style Icon Pixmap)
    (option : Option QStyleOption) (widget : Option QWidget) : List Call × Option Icon :=
  let s := S.titleBarButtonSide option widget
  let pm := S.transparentPixmap ⟨s, s⟩
  S.renderOrBreak pm ((S.getIndicatorSpec "TitleBar").element ++ "-menu-normal") ⟨0, 0, s, s⟩

/-- Lines 224-256, `case SP_TitleBarNormalButton`. -/
def titleBarNormalButton (S : Style Icon Pixmap)
    (option : Option QStyleOption) (widget : Option QWidget) : List Call × Option Icon :=
  let s := S.titleBarButtonSide option widget
  let pm := S.transparentPixmap ⟨s, s⟩
  if S.noMenuIcon option widget then ([], some (S.iconOfPixmap pm))
  else
    let status : String :=
      match option with
      | some o => if o.isButton then stateStatus o.state else "normal"
      | none => "normal"
    S.dockThenTitleBar pm s (isDockWidget widget)
      ((S.getIndicatorSpec "Dock").element ++ "-restore")
      ((S.getIndicatorSpec "TitleBar").element ++ "-restore-" ++ status)

/-- Lines 41-540: the `switch (standardIcon)` statement.  The result is the
calls made and `some icn` when a `return icn` is reached inside the switch,
`none` when the case ends in `break` (or there is no case). -/
def standardIconSwitch (S : Style Icon Pixmap) (standardIcon : StandardPixmap)
    (option : Option QStyleOption) (widget : Option QWidget) : List Call × Option Icon :=
  match standardIcon with
  | .SP_ToolBarHorizontalExtensionButton => S.toolBarHorizontalExtensionButton option widget
  | .SP_ToolBarVerticalExtensionButton => S.toolBarVerticalExtensionButton widget
  | .SP_LineEditClearButton => S.lineEditClearButton option widget
  | .SP_TitleBarMinButton => S.titleBarMinButton option widget
  | .SP_TitleBarMaxButton => S.titleBarMaxButton option widget
  | .SP_DockWidgetCloseButton
  | .SP_TitleBarCloseButton => S.closeButton standardIcon option widget
  | .SP_TitleBarMenuButton => S.titleBarMenuButton option widget
  | .SP_TitleBarNormalButton => S.titleBarNormalButton option widget
  -- file system icons
  | .SP_DriveFDIcon => S.themed "media-floppy"
  | .SP_DriveHDIcon => S.themed "drive-harddisk"
  | .SP_DriveCDIcon
  | .SP_DriveDVDIcon => S.themed "media-optical"
  | .SP_TrashIcon => S.themed "user-trash"
  | .SP_DesktopIcon => S.themed "user-desktop"
  | .SP_ComputerIcon => S.themedOr "computer" "system"
  | .SP_DirClosedIcon
  | .SP_DirIcon => S.themed "folder"
  | .SP_DirOpenIcon => S.themed "folder-open"
  -- arrow icons
  | .SP_ArrowUp => S.themed "go-up"
  | .SP_ArrowDown => S.themed "go-down"
  | .SP_ArrowRight => S.themed "go-next"
  | .SP_ArrowLeft => S.themed "go-previous"
  -- process icons
  | .SP_BrowserReload => S.themed "view-refresh"
  | .SP_BrowserStop => S.themed "process-stop"
  -- media icons
  | .SP_MediaPlay => S.themed "media-playback-start"
  | .SP_MediaPause => S.themed "media-playback-pause"
  | .SP_MediaStop => S.themed "media-playback-stop"
  | .SP_MediaSeekForward => S.themed "media-seek-forward"
  | .SP_MediaSeekBackward => S.themed "media-seek-backward"
  | .SP_MediaSkipForward => S.themed "media-skip-forward"
  | .SP_MediaSkipBackward => S.themed "media-skip-backward"
  | .SP_MediaVolume => S.themed "audio-volume-medium"
  | .SP_MediaVolumeMuted => S.themed "audio-volume-muted"
  | .SP_CommandLink
  | .SP_ArrowForward =>
    if S.rtl option then
      ([], some (S.commonStandardIcon StandardPixmap.SP_ArrowLeft option widget))
    else ([], some (S.commonStandardIcon StandardPixmap.SP_ArrowRight option widget))
  | .SP_ArrowBack =>
    if S.rtl option then
      ([], some (S.commonStandardIcon StandardPixmap.SP_ArrowRight option widget))
    else ([], some (S.commonStandardIcon StandardPixmap.SP_ArrowLeft option widget))
  -- link icons
  | .SP_FileLinkIcon => S.linkIcon StandardPixmap.SP_FileIcon option widget
  | .SP_DirLinkIcon => S.linkIcon StandardPixmap.SP_DirIcon option widget
  -- dialog icons
  | .SP_DialogCloseButton => S.themedOr "dialog-close" "window-close"
  | .SP_DialogOpenButton => S.themed "document-open"
  | .SP_DialogApplyButton => S.themedOr "dialog-ok-apply" "dialog-ok"
  | .SP_DialogYesToAllButton
  | .SP_DialogYesButton
  | .SP_DialogOkButton => S.themed "dialog-ok"
  | .SP_DialogNoToAllButton
  | .SP_DialogAbortButton
  | .SP_DialogIgnoreButton
  | .SP_DialogCancelButton
  | .SP_DialogNoButton => S.themedOr "dialog-cancel" "process-stop"
  | .SP_DialogSaveButton => S.themed "document-save"
  | .SP_DialogResetButton => S.themed "edit-clear"
  | .SP_DialogHelpButton => S.themed "help-contents"
  | .SP_FileDialogDetailedView => S.themed "view-list-details"
  | .SP_FileDialogToParent => S.themed "go-up"
  | .SP_FileDialogNewFolder => S.themed "folder-new"
  | .SP_DialogSaveAllButton => S.themed "document-save-all"
  | .SP_DialogRetryButton => S.themed "view-refresh"
  | .SP_RestoreDefaultsButton => S.themed "edit-undo"
  -- these are for LXQt file dialog
  | .SP_FileDialogListView => S.themed "view-list-text"
  | .SP_FileDialogInfoView => S.themed "dialog-information"
  | .SP_FileDialogContentsView => S.themed "view-list-icons"
  | .SP_TabCloseButton => S.themedOr "tab-close" "window-close"
  | _ => ([], none)

/-- `Style::standardIcon`: the switch, and line 542 when the switch is left
without a `return`. -/
def standardIcon (S : Style Icon Pixmap) (standardIcon : StandardPixmap)
    (option : Option QStyleOption) (widget : Option QWidget) : Outcome Icon :=
  match S.standardIconSwitch standardIcon option widget with
  | (calls, some icn) => ⟨icn, calls⟩
  | (calls, none) => ⟨S.commonStandardIcon standardIcon option widget, calls⟩

end Style

/-! ## A symbolic toolkit

An instance of `Style` whose icons and pixmaps are terms that record how they
were built.  It is used to run the routine on concrete inputs. -/

mutual
/-- Icons as terms. -/
inductive SymIcon where
  | null
  | theme (name : String)
  | common (k : StandardPixmap) (option : Option QStyleOption) (widget : Option QWidget)
  | ofPixmap (pm : SymPixmap)
  | withPixmap (icon : SymIcon) (pm : SymPixmap)
/-- Pixmaps as terms. -/
inductive SymPixmap where
  | transparent (size : QSize)
  | painted (pm : SymPixmap) (element : String) (bounds : QRect)
  | ofIcon (icon : SymIcon) (size : QSize) (ratio : ℚ)
  | drawn (base : SymPixmap) (x y : Int) (src : SymPixmap)
  | recoloured (icon : SymIcon) (mode : KvIconMode) (state : IconState) (size : QSize)
end

/-- The parameters of the symbolic toolkit. -/
structure SymTheme where
  /-- the names the icon theme has -/
  icons : List String
  /-- the elements the renderer has and renders -/
  elements : List String
  /-- the application layout direction -/
  direction : LayoutDirection
  /-- the colour pairs with enough contrast -/
  contrast : QColor → QColor → Bool
  /-- the available sizes of the icons of `QCommonStyle` -/
  sizes : List QSize
  /-- `hspec_.style_vertical_toolbars` -/
  verticalToolbars : Bool

/-- The colour a label spec names: `"dark"` is black, anything else white. -/
def symColor (s : String) : QColor :=
  if s == "dark" then ⟨true, 0, 0, 0, 255⟩ else ⟨true, 255, 255, 255, 255⟩

/-- A palette with one colour in every role. -/
def plainPalette (c : QColor) : QPalette := ⟨fun _ _ => c⟩

/-- The symbolic toolkit for a theme: labels of the tool bar and the title
bar are dark, those of menus are light, the standard palette is dark,
indicator elements are named after the widget in lower case. -/
def symStyle (T : SymTheme) : Style SymIcon SymPixmap where
  appDevicePixelRatio := 1
  appLayoutDirection := T.direction
  nullIcon := SymIcon.null
  isNull := fun i =>
    match i with
    | SymIcon.null => true
    | _ => false
  isNull_nullIcon := rfl
  hasThemeIcon := fun n => T.icons.contains n
  fromTheme := fun n => if T.icons.contains n then SymIcon.theme n else SymIcon.null
  fromThemeOr := fun n fallback => if T.icons.contains n then SymIcon.theme n else fallback
  availableSizes := fun i _ _ =>
    match i with
    | SymIcon.common _ _ _ => T.sizes
    | SymIcon.theme _ => [⟨64, 64⟩]
    | _ => []
  iconOfPixmap := SymIcon.ofPixmap
  iconPixmap := SymPixmap.ofIcon
  addPixmap := SymIcon.withPixmap
  transparentPixmap := SymPixmap.transparent
  drawPixmap := SymPixmap.drawn
  commonStandardIcon := SymIcon.common
  themeRndr_ := some ⟨true, fun e => T.elements.contains e⟩
  hspec_ := ⟨T.verticalToolbars⟩
  getIndicatorSpec := fun n =>
    if n == "IndicatorArrow" then ⟨"arrow", 12⟩
    else if n == "TitleBar" then ⟨"title", 16⟩
    else if n == "Dock" then ⟨"dock", 16⟩
    else ⟨"", 0⟩
  getLabelSpec := fun n =>
    if n == "MenuItem" || n == "MenuBar" then ⟨"light", "light"⟩ else ⟨"dark", "dark"⟩
  getFromRGBA := symColor
  enoughContrast := T.contrast
  standardPalette := plainPalette (symColor "dark")
  isStylableToolbar := fun _ => false
  mergedToolbarHeight := fun _ => 0
  renderElement := fun pm e r =>
    if T.elements.contains e then some (SymPixmap.painted pm e r) else none
  pixelMetric := fun _ _ _ => 16
  getPixmapFromIcon := SymPixmap.recoloured

/-- Two colours differ. -/
def differ (a b : QColor) : Bool := a != b

/-- A theme with no icons and no elements. -/
def emptyTheme : SymTheme :=
  ⟨[], [], LayoutDirection.LeftToRight, differ, [], false⟩

/-- A plain dock widget. -/
def dockWidget : QWidget :=
  ⟨false, true, LayoutDirection.LeftToRight, true, plainPalette (symColor "dark"), none⟩

/-- A plain MDI sub-window. -/
def mdiWidget : QWidget :=
  ⟨true, false, LayoutDirection.LeftToRight, true, plainPalette (symColor "dark"), none⟩

/-- A plain option with the given direction and state. -/
def plainOption (d : LayoutDirection) (state : Nat) (isButton : Bool) : QStyleOption :=
  ⟨d, state, plainPalette (symColor "dark"), isButton⟩

/-- The size of a symbolic pixmap. -/
def SymPixmap.size : SymPixmap → QSize
  | .transparent size => size
  | .painted pm _ _ => pm.size
  | .ofIcon _ size _ => size
  | .drawn base _ _ _ => base.size
  | .recoloured _ _ _ size => size

/-- A recorded call reported failure: a `renderElement` that returned
`false`, a `fromTheme` that gave a null icon.  `hasThemeIcon` yields no icon
and is never counted as a success. -/
def Call.failed : Call → Bool
  | .renderElement _ _ ok => !ok
  | .hasThemeIcon _ _ => true
  | .fromTheme _ null => null

/-- The elements passed to `renderElement`, in call order. -/
def renderedElements : List Call → List String
  | [] => []
  | .renderElement element _ _ :: cs => element :: renderedElements cs
  | _ :: cs => renderedElements cs

/-- The four kinds whose case starts with the MDI contrast test. -/
def hasMdiTest : StandardPixmap → Bool
  | .SP_TitleBarMinButton => true
  | .SP_TitleBarMaxButton => true
  | .SP_TitleBarNormalButton => true
  | .SP_TitleBarCloseButton => true
  | _ => false

/-- The MDI sub-window contrast shortcut as the properties word it: the kind
is one of the four title-bar kinds, `option` is null, the widget is a
`QMdiSubWindow`, and `enoughContrast` holds between the MenuItem label's
normal colour and the TitleBar label's focus colour. -/
def mdiShortcut {Icon Pixmap : Type} (S : Style Icon Pixmap) (k : StandardPixmap)
    (option : Option QStyleOption) (widget : Option QWidget) : Bool :=
  hasMdiTest k
    && (option.isNone && isMdiSubWindow widget
        && S.enoughContrast (S.getFromRGBA (S.getLabelSpec "MenuItem").normalColor)
             (S.getFromRGBA (S.getLabelSpec "TitleBar").focusColor))

/-- The fixed name table of the themed kinds, entry by entry as the property
lists it (its last entry is the name of the new-folder icon). -/
def themeNameTable : List (StandardPixmap × String) :=
  [(.SP_DriveFDIcon, "media-floppy"),
   (.SP_DriveHDIcon, "drive-harddisk"),
   (.SP_DriveCDIcon, "media-optical"),
   (.SP_DriveDVDIcon, "media-optical"),
   (.SP_TrashIcon, "user-trash"),
   (.SP_DesktopIcon, "user-desktop"),
   (.SP_DirClosedIcon, "folder"),
   (.SP_DirIcon, "folder"),
   (.SP_DirOpenIcon, "folder-open"),
   (.SP_ArrowUp, "go-up"),
   (.SP_ArrowDown, "go-down"),
   (.SP_ArrowRight, "go-next"),
   (.SP_ArrowLeft, "go-previous"),
   (.SP_BrowserReload, "view-refresh"),
   (.SP_BrowserStop, "process-stop"),
   (.SP_MediaPlay, "media-playback-start"),
   (.SP_MediaPause, "media-playback-pause"),
   (.SP_MediaStop, "media-playback-stop"),
   (.SP_MediaSeekForward, "media-seek-forward"),
   (.SP_MediaSeekBackward, "media-seek-backward"),
   (.SP_MediaSkipForward, "media-skip-forward"),
   (.SP_MediaSkipBackward, "media-skip-backward"),
   (.SP_MediaVolume, "audio-volume-medium"),
   (.SP_MediaVolumeMuted, "audio-volume-muted"),
   (.SP_DialogOpenButton, "document-open"),
   (.SP_DialogYesToAllButton, "dialog-ok"),
   (.SP_DialogYesButton, "dialog-ok"),
   (.SP_DialogOkButton, "dialog-ok"),
   (.SP_DialogSaveButton, "document-save"),
   (.SP_DialogResetButton, "edit-clear"),
   (.SP_DialogHelpButton, "help-contents"),
   (.SP_FileDialogDetailedView, "view-list-details"),
   (.SP_FileDialogToParent, "go-up"),
   (.SP_FileDialogNewFolder, "folder-new")]

/-- The themed kinds of the dialog group that come after the listed ones,
each with its one theme name (lines 500-530). -/
def moreThemeNames : List (StandardPixmap × String) :=
  [(.SP_DialogSaveAllButton, "document-save-all"),
   (.SP_DialogRetryButton, "view-refresh"),
   (.SP_RestoreDefaultsButton, "edit-undo"),
   (.SP_FileDialogListView, "view-list-text"),
   (.SP_FileDialogInfoView, "dialog-information"),
   (.SP_FileDialogContentsView, "view-list-icons")]

/-- The themed kinds whose lookup names a second theme icon to fall back on:
kind, name, name of the fallback. -/
def themeFallbackNames : List (StandardPixmap × String × String) :=
  [(.SP_ComputerIcon, "computer", "system"),
   (.SP_DialogCloseButton, "dialog-close", "window-close"),
   (.SP_DialogApplyButton, "dialog-ok-apply", "dialog-ok"),
   (.SP_DialogNoToAllButton, "dialog-cancel", "process-stop"),
   (.SP_DialogAbortButton, "dialog-cancel", "process-stop"),
   (.SP_DialogIgnoreButton, "dialog-cancel", "process-stop"),
   (.SP_DialogCancelButton, "dialog-cancel", "process-stop"),
   (.SP_DialogNoButton, "dialog-cancel", "process-stop"),
   (.SP_TabCloseButton, "tab-close", "window-close")]

/-- Every file-system, arrow, process, media and dialog kind handled by an
icon-theme lookup (and SP_TabCloseButton). -/
def themedKinds : List StandardPixmap :=
  (themeNameTable ++ moreThemeNames).map Prod.fst ++ themeFallbackNames.map (fun e => e.1)

/-- The call is a `QIcon::fromTheme`. -/
def Call.isFromTheme : Call → Bool
  | .fromTheme _ _ => true
  | _ => false

/-- A theme whose renderer has the flat arrow and the flat left arrow. -/
def flatTheme : SymTheme :=
  ⟨[], ["flat-arrow-down-normal", "flat-arrow-left-normal"], LayoutDirection.LeftToRight,
   differ, [], true⟩

/-- A theme whose renderer has the plain down arrow but not the flat one, and
in which every pair of colours has enough contrast. -/
def verticalTheme : SymTheme :=
  ⟨[], ["arrow-down-normal"], LayoutDirection.LeftToRight, fun _ _ => true, [], true⟩

/-- The direction the line-edit clear button goes by, as the property words
it: the option's direction when the option is non-null, otherwise the
widget's layout direction when the widget is non-null, otherwise the
application layout direction. -/
def clearButtonDirection {Icon Pixmap : Type} (S : Style Icon Pixmap)
    (option : Option QStyleOption) (widget : Option QWidget) : LayoutDirection :=
  match option, widget with
  | some o, _ => o.direction
  | none, some w => w.layoutDirection
  | none, none => S.appLayoutDirection

/-- The first theme name tried for the line-edit clear button, as the
property words it. -/
def clearButtonFirstName {Icon Pixmap : Type} (S : Style Icon Pixmap)
    (option : Option QStyleOption) (widget : Option QWidget) : String :=
  if clearButtonDirection S option widget = LayoutDirection.RightToLeft then
    "edit-clear-locationbar-ltr"
  else "edit-clear-locationbar-rtl"

/-- The status of a state as the property words it: "disabled" when
State_Enabled is not set, whatever the other flags are; otherwise "pressed"
if State_Sunken is set, else "focused" if State_MouseOver is set, else
"normal". -/
def statusOfState (state : Nat) : String :=
  if state &&& State_Enabled = 0 then "disabled"
  else if state &&& State_Sunken ≠ 0 then "pressed"
  else if state &&& State_MouseOver ≠ 0 then "focused"
  else "normal"

/-- The status of the minimize button: "normal" without an option. -/
def minimizeStatus (option : Option QStyleOption) : String :=
  match option with
  | some o => statusOfState o.state
  | none => "normal"

/-- The status of the close and restore buttons: that of the state for a
`QStyleOptionButton`, "normal" for every other option and without one. -/
def buttonStatus (option : Option QStyleOption) : String :=
  match option with
  | some o => if o.isButton = true then statusOfState o.state else "normal"
  | none => "normal"

/-- The outcome of the Dock-then-TitleBar attempts as the property words it:
the Dock element is rendered first when it is tried at all, the TitleBar
element only when nothing was rendered, the rendered pixmap is returned when
a render succeeded and the default icon otherwise. -/
def dockPrecedence {Icon Pixmap : Type} (S : Style Icon Pixmap) (pm : Pixmap) (bounds : QRect)
    (tryDock : Bool) (dockElement titleBarElement : String) (fallback : Icon) : Outcome Icon :=
  if tryDock then
    match S.renderElement pm dockElement bounds with
    | some painted => ⟨S.iconOfPixmap painted, [Call.renderElement dockElement bounds true]⟩
    | none =>
      match S.renderElement pm titleBarElement bounds with
      | some painted =>
        ⟨S.iconOfPixmap painted,
         [Call.renderElement dockElement bounds false,
          Call.renderElement titleBarElement bounds true]⟩
      | none =>
        ⟨fallback,
         [Call.renderElement dockElement bounds false,
          Call.renderElement titleBarElement bounds false]⟩
  else
    match S.renderElement pm titleBarElement bounds with
    | some painted => ⟨S.iconOfPixmap painted, [Call.renderElement titleBarElement bounds true]⟩
    | none => ⟨fallback, [Call.renderElement titleBarElement bounds false]⟩

/-- A theme whose renderer has the title-bar close element only. -/
def closeTheme : SymTheme :=
  { emptyTheme with elements := ["title-close-normal"] }

/-! ## Properties -/

section Properties

variable {Icon Pixmap : Type}

open StandardPixmap

theorem standardIcon_calls (S : Style Icon Pixmap) (k : StandardPixmap)
    (option : Option QStyleOption) (widget : Option QWidget) :
    (S.standardIcon k option widget).calls = (S.standardIconSwitch k option widget).1 := by
  unfold Style.standardIcon
  rcases h : S.standardIconSwitch k option widget with ⟨calls, _ | icn⟩ <;> rfl

theorem standardIcon_icon (S : Style Icon Pixmap) (k : StandardPixmap)
    (option : Option QStyleOption) (widget : Option QWidget) :
    (S.standardIcon k option widget).icon
      = ((S.standardIconSwitch k option widget).2).getD
          (S.commonStandardIcon k option widget) := by
  unfold Style.standardIcon
  rcases h : S.standardIconSwitch k option widget with ⟨calls, _ | icn⟩ <;> rfl

/-- A themed body whose lookup gave a null icon ends in `break`. -/
theorem themed_failed (S : Style Icon Pixmap) (name : String)
    (h : ∀ c ∈ (S.themed name).1, c.failed = true) : (S.themed name).2 = none := by
  simp [Style.themed, Call.failed] at h ⊢
  exact h

/-- A two-name themed body whose lookups gave null icons ends in `break`. -/
theorem themedOr_failed (S : Style Icon Pixmap) (name other : String)
    (h : ∀ c ∈ (S.themedOr name other).1, c.failed = true) :
    (S.themedOr name other).2 = none := by
  simp [Style.themedOr, Call.failed] at h ⊢
  exact h.2

/-- A link body whose emblem lookup gave a null icon ends in `break`. -/
theorem linkIcon_failed (S : Style Icon Pixmap) (base : StandardPixmap)
    (option : Option QStyleOption) (widget : Option QWidget)
    (h : ∀ c ∈ (S.linkIcon base option widget).1, c.failed = true) :
    (S.linkIcon base option widget).2 = none := by
  simp [Style.linkIcon, Call.failed] at h ⊢
  exact h

/-- A rendered body whose render failed ends in `break`. -/
theorem renderOrBreak_failed (S : Style Icon Pixmap) (pm : Pixmap) (e : String) (r : QRect)
    (h : ∀ c ∈ (S.renderOrBreak pm e r).1, c.failed = true) :
    (S.renderOrBreak pm e r).2 = none := by
  unfold Style.renderOrBreak at h ⊢
  cases h1 : S.renderElement pm e r <;> simp_all [Call.failed]

/-- The Dock/TitleBar attempts end in `break` when every attempt failed. -/
theorem dockThenTitleBar_failed (S : Style Icon Pixmap) (pm : Pixmap) (s : Int)
    (tryDock : Bool) (d t : String)
    (h : ∀ c ∈ (S.dockThenTitleBar pm s tryDock d t).1, c.failed = true) :
    (S.dockThenTitleBar pm s tryDock d t).2 = none := by
  unfold Style.dockThenTitleBar at h ⊢
  cases tryDock
  · exact renderOrBreak_failed S _ _ _ h
  · cases h1 : S.renderElement pm d ⟨0, 0, s, s⟩ <;>
      cases h2 : S.renderElement pm t ⟨0, 0, s, s⟩ <;>
      simp_all [Call.failed]

/-- The line-edit clear lookup gives a null icon when no lookup gave one. -/
theorem lineEditClearLookup_failed (S : Style Icon Pixmap)
    (option : Option QStyleOption) (widget : Option QWidget)
    (h : ∀ c ∈ (S.lineEditClearLookup option widget).1, c.failed = true) :
    S.isNull (S.lineEditClearLookup option widget).2 = true := by
  unfold Style.lineEditClearLookup at h ⊢
  simp only at h ⊢
  split_ifs at h ⊢ <;> simp_all [Call.failed, S.isNull_nullIcon]

/-- The line-edit clear body ends in `break` when no lookup gave an icon. -/
theorem lineEditClearButton_failed (S : Style Icon Pixmap)
    (option : Option QStyleOption) (widget : Option QWidget)
    (h : ∀ c ∈ (S.lineEditClearButton option widget).1, c.failed = true) :
    (S.lineEditClearButton option widget).2 = none := by
  have hn := lineEditClearLookup_failed S option widget h
  simp [Style.lineEditClearButton, hn]

/-- For the four kinds with the MDI test the shortcut is the test itself. -/
theorem mdiShortcut_eq_noMenuIcon (S : Style Icon Pixmap) (k : StandardPixmap)
    (option : Option QStyleOption) (widget : Option QWidget) (hk : hasMdiTest k = true) :
    mdiShortcut S k option widget = S.noMenuIcon option widget := by
  simp [mdiShortcut, Style.noMenuIcon, hk]

theorem titleBarMinButton_failed (S : Style Icon Pixmap)
    (option : Option QStyleOption) (widget : Option QWidget)
    (hm : S.noMenuIcon option widget = false)
    (h : ∀ c ∈ (S.titleBarMinButton option widget).1, c.failed = true) :
    (S.titleBarMinButton option widget).2 = none := by
  simp only [Style.titleBarMinButton, hm, Bool.false_eq_true, if_false] at h ⊢
  exact renderOrBreak_failed S _ _ _ h

theorem titleBarMaxButton_failed (S : Style Icon Pixmap)
    (option : Option QStyleOption) (widget : Option QWidget)
    (hm : S.noMenuIcon option widget = false)
    (h : ∀ c ∈ (S.titleBarMaxButton option widget).1, c.failed = true) :
    (S.titleBarMaxButton option widget).2 = none := by
  simp only [Style.titleBarMaxButton, hm, Bool.false_eq_true, if_false] at h ⊢
  exact renderOrBreak_failed S _ _ _ h

theorem titleBarNormalButton_failed (S : Style Icon Pixmap)
    (option : Option QStyleOption) (widget : Option QWidget)
    (hm : S.noMenuIcon option widget = false)
    (h : ∀ c ∈ (S.titleBarNormalButton option widget).1, c.failed = true) :
    (S.titleBarNormalButton option widget).2 = none := by
  simp only [Style.titleBarNormalButton, hm, Bool.false_eq_true, if_false] at h ⊢
  exact dockThenTitleBar_failed S _ _ _ _ _ h

theorem closeButton_failed (S : Style Icon Pixmap) (k : StandardPixmap)
    (option : Option QStyleOption) (widget : Option QWidget)
    (hm : (k == SP_TitleBarCloseButton && S.noMenuIcon option widget) = false)
    (h : ∀ c ∈ (S.closeButton k option widget).1, c.failed = true) :
    (S.closeButton k option widget).2 = none := by
  simp only [Style.closeButton, hm, Bool.false_eq_true, if_false] at h ⊢
  exact dockThenTitleBar_failed S _ _ _ _ _ h

/-- C1: for every kind other than SP_ArrowForward, SP_ArrowBack and
SP_CommandLink (kinds without a case included), when the MDI contrast
shortcut does not fire, every `renderElement` call made reports failure and
every `fromTheme` call made yields a null icon, the icon returned is
`QCommonStyle::standardIcon` of the same kind, option and widget. -/
theorem standardIcon_falls_back (S : Style Icon Pixmap) (k : StandardPixmap)
    (option : Option QStyleOption) (widget : Option QWidget)
    (hk : k ≠ SP_ArrowForward ∧ k ≠ SP_ArrowBack ∧ k ≠ SP_CommandLink)
    (hmdi : mdiShortcut S k option widget = false)
    (hfail : ∀ c ∈ (S.standardIcon k option widget).calls, c.failed = true) :
    (S.standardIcon k option widget).icon = S.commonStandardIcon k option widget := by
  rw [standardIcon_calls] at hfail
  rw [standardIcon_icon]
  suffices h : (S.standardIconSwitch k option widget).2 = none by rw [h]; rfl
  obtain ⟨hk1, hk2, hk3⟩ := hk
  cases k <;>
    first
    | exact themed_failed S _ hfail
    | exact themedOr_failed S _ _ hfail
    | exact linkIcon_failed S _ _ _ hfail
    | exact renderOrBreak_failed S _ _ _ hfail
    | exact lineEditClearButton_failed S _ _ hfail
    | exact titleBarMinButton_failed S _ _ hmdi hfail
    | exact titleBarMaxButton_failed S _ _ hmdi hfail
    | exact titleBarNormalButton_failed S _ _ hmdi hfail
    | exact closeButton_failed S _ _ _ hmdi hfail
    | exact closeButton_failed S _ _ _ rfl hfail
    | exact absurd rfl hk1
    | exact absurd rfl hk2
    | exact absurd rfl hk3
    | exact rfl

theorem standardIcon_falls_back_witness :
    (SP_TitleBarCloseButton ≠ SP_ArrowForward ∧ SP_TitleBarCloseButton ≠ SP_ArrowBack
        ∧ SP_TitleBarCloseButton ≠ SP_CommandLink)
      ∧ mdiShortcut (symStyle emptyTheme) SP_TitleBarCloseButton none (some dockWidget) = false
      ∧ renderedElements
            ((symStyle emptyTheme).standardIcon SP_TitleBarCloseButton none
              (some dockWidget)).calls
          = ["dock-close", "title-close-normal"]
      ∧ ((symStyle emptyTheme).standardIcon SP_TitleBarCloseButton none (some dockWidget)).icon
          = (symStyle emptyTheme).commonStandardIcon SP_TitleBarCloseButton none
              (some dockWidget) :=
  ⟨by simp, by decide, by decide,
   standardIcon_falls_back (symStyle emptyTheme) SP_TitleBarCloseButton none (some dockWidget)
     (by simp) (by decide) (by decide)⟩

/-- When the switch reaches a `return`, the routine returns that icon. -/
theorem standardIcon_of_switch (S : Style Icon Pixmap) (k : StandardPixmap)
    (option : Option QStyleOption) (widget : Option QWidget) (calls : List Call) (icn : Icon)
    (h : S.standardIconSwitch k option widget = (calls, some icn)) :
    S.standardIcon k option widget = ⟨icn, calls⟩ := by
  unfold Style.standardIcon
  rw [h]

/-- A themed body whose lookup gave an icon returns it. -/
theorem themed_found (S : Style Icon Pixmap) (name : String)
    (h : S.isNull (S.fromTheme name) = false) :
    S.themed name = ([Call.fromTheme name false], some (S.fromTheme name)) := by
  simp [Style.themed, h]

/-- A two-name themed body whose lookup gave an icon returns it. -/
theorem themedOr_found (S : Style Icon Pixmap) (name other : String)
    (h : S.isNull (S.fromThemeOr name (S.fromTheme other)) = false) :
    S.themedOr name other
      = ([Call.fromTheme other (S.isNull (S.fromTheme other)), Call.fromTheme name false],
         some (S.fromThemeOr name (S.fromTheme other))) := by
  simp [Style.themedOr, h]

theorem renderOrBreak_noTheme (S : Style Icon Pixmap) (pm : Pixmap) (e : String) (r : QRect) :
    ∀ c ∈ (S.renderOrBreak pm e r).1, c.isFromTheme = false := by
  unfold Style.renderOrBreak
  cases S.renderElement pm e r <;> simp [Call.isFromTheme]

theorem dockThenTitleBar_noTheme (S : Style Icon Pixmap) (pm : Pixmap) (s : Int)
    (tryDock : Bool) (d t : String) :
    ∀ c ∈ (S.dockThenTitleBar pm s tryDock d t).1, c.isFromTheme = false := by
  unfold Style.dockThenTitleBar
  cases tryDock
  · exact renderOrBreak_noTheme S pm t ⟨0, 0, s, s⟩
  · cases S.renderElement pm d ⟨0, 0, s, s⟩ <;>
      cases S.renderElement pm t ⟨0, 0, s, s⟩ <;> simp [Call.isFromTheme]

/-- The cases of the switch that render, and the three arrow cases, make no
`fromTheme` call. -/
theorem rendered_noTheme (S : Style Icon Pixmap) (k : StandardPixmap)
    (option : Option QStyleOption) (widget : Option QWidget)
    (hk : k ∈ [SP_ToolBarHorizontalExtensionButton, SP_ToolBarVerticalExtensionButton,
      SP_TitleBarMinButton, SP_TitleBarMaxButton, SP_DockWidgetCloseButton,
      SP_TitleBarCloseButton, SP_TitleBarMenuButton, SP_TitleBarNormalButton,
      SP_CommandLink, SP_ArrowForward, SP_ArrowBack]) :
    ∀ c ∈ (S.standardIconSwitch k option widget).1, c.isFromTheme = false := by
  simp only [List.mem_cons, List.mem_nil_iff, or_false] at hk
  rcases hk with rfl | rfl | rfl | rfl | rfl | rfl | rfl | rfl | rfl | rfl | rfl
  · exact renderOrBreak_noTheme S _ _ _
  · exact renderOrBreak_noTheme S _ _ _
  · show ∀ c ∈ (S.titleBarMinButton option widget).1, _
    unfold Style.titleBarMinButton
    simp only
    split_ifs
    · simp
    · exact renderOrBreak_noTheme S _ _ _
  · show ∀ c ∈ (S.titleBarMaxButton option widget).1, _
    unfold Style.titleBarMaxButton
    simp only
    split_ifs
    · simp
    · exact renderOrBreak_noTheme S _ _ _
  · show ∀ c ∈ (S.closeButton SP_DockWidgetCloseButton option widget).1, _
    unfold Style.closeButton
    simp only
    split_ifs
    · simp
    · exact dockThenTitleBar_noTheme S _ _ _ _ _
  · show ∀ c ∈ (S.closeButton SP_TitleBarCloseButton option widget).1, _
    unfold Style.closeButton
    simp only
    split_ifs
    · simp
    · exact dockThenTitleBar_noTheme S _ _ _ _ _
  · exact renderOrBreak_noTheme S _ _ _
  · show ∀ c ∈ (S.titleBarNormalButton option widget).1, _
    unfold Style.titleBarNormalButton
    simp only
    split_ifs
    · simp
    · exact dockThenTitleBar_noTheme S _ _ _ _ _
  · show ∀ c ∈ (if S.rtl option = true then _ else _ : List Call × Option Icon).1, _
    split_ifs <;> simp
  · show ∀ c ∈ (if S.rtl option = true then _ else _ : List Call × Option Icon).1, _
    split_ifs <;> simp
  · show ∀ c ∈ (if S.rtl option = true then _ else _ : List Call × Option Icon).1, _
    split_ifs <;> simp

/-- C2: for every file-system, arrow, process, media and dialog kind
handled by an icon-theme lookup, whenever the lookup yields a non-null icon
`Style::standardIcon` returns exactly that icon: for the kinds of the fixed
name table and the six one-name kinds after it, the icon of
`QIcon::fromTheme(name)`, after that one lookup; for the kinds whose lookup
names a fallback, the icon of `QIcon::fromTheme(name, QIcon::fromTheme(other))`,
after those two lookups; and these 49 kinds are all the kinds for which the
routine calls `QIcon::fromTheme`, apart from the two link kinds and
SP_LineEditClearButton. -/
theorem standardIcon_theme_table (S : Style Icon Pixmap) (k : StandardPixmap)
    (option : Option QStyleOption) (widget : Option QWidget) :
    (∀ name, (k, name) ∈ themeNameTable ++ moreThemeNames →
        S.isNull (S.fromTheme name) = false →
        S.standardIcon k option widget = ⟨S.fromTheme name, [Call.fromTheme name false]⟩)
      ∧ (∀ name other, (k, name, other) ∈ themeFallbackNames →
          S.isNull (S.fromThemeOr name (S.fromTheme other)) = false →
          S.standardIcon k option widget
            = ⟨S.fromThemeOr name (S.fromTheme other),
               [Call.fromTheme other (S.isNull (S.fromTheme other)),
                Call.fromTheme name false]⟩)
      ∧ ((∃ c ∈ (S.standardIcon k option widget).calls, c.isFromTheme = true) →
          k ∈ themedKinds ∨ k = SP_FileLinkIcon ∨ k = SP_DirLinkIcon
            ∨ k = SP_LineEditClearButton) := by
  refine ⟨fun name hmem hicon => ?_, fun name other hmem hicon => ?_, ?_⟩
  · simp only [themeNameTable, moreThemeNames, List.cons_append, List.nil_append,
      List.mem_cons, Prod.mk.injEq, List.mem_nil_iff, or_false] at hmem
    rcases hmem with h | h | h | h | h | h | h | h | h | h | h | h | h | h | h | h | h | h | h
      | h | h | h | h | h | h | h | h | h | h | h | h | h | h | h | h | h | h | h | h | h <;>
    · obtain ⟨rfl, rfl⟩ := h
      exact standardIcon_of_switch S _ _ _ _ _ (themed_found S _ hicon)
  · simp only [themeFallbackNames, List.mem_cons, Prod.mk.injEq, List.mem_nil_iff,
      or_false] at hmem
    rcases hmem with h | h | h | h | h | h | h | h | h <;>
    · obtain ⟨rfl, rfl, rfl⟩ := h
      exact standardIcon_of_switch S _ _ _ _ _ (themedOr_found S _ _ hicon)
  · rw [standardIcon_calls]
    rintro ⟨c, hc, hth⟩
    cases k <;>
      first
      | (refine Or.inl ?_
         simp [themedKinds, themeNameTable, moreThemeNames, themeFallbackNames]
         done)
      | exact Or.inr (Or.inl rfl)
      | exact Or.inr (Or.inr (Or.inl rfl))
      | exact Or.inr (Or.inr (Or.inr rfl))
      | exact absurd hc (List.not_mem_nil c)
      | (have h := rendered_noTheme S _ option widget (by simp) c hc
         rw [h] at hth
         exact absurd hth (by simp))

theorem standardIcon_theme_table_witness :
    (symStyle { emptyTheme with icons := ["folder-new"] }).standardIcon
          SP_FileDialogNewFolder none none
        = ⟨SymIcon.theme "folder-new", [Call.fromTheme "folder-new" false]⟩
      ∧ (symStyle { emptyTheme with icons := ["document-save-all"] }).standardIcon
            SP_DialogSaveAllButton none none
          = ⟨SymIcon.theme "document-save-all", [Call.fromTheme "document-save-all" false]⟩
      ∧ (symStyle { emptyTheme with icons := ["system"] }).standardIcon
            SP_ComputerIcon none none
          = ⟨SymIcon.theme "system",
             [Call.fromTheme "system" false, Call.fromTheme "computer" false]⟩ :=
  ⟨(standardIcon_theme_table (symStyle { emptyTheme with icons := ["folder-new"] })
      SP_FileDialogNewFolder none none).1 "folder-new"
      (by simp [themeNameTable, moreThemeNames]) (by decide),
   (standardIcon_theme_table (symStyle { emptyTheme with icons := ["document-save-all"] })
      SP_DialogSaveAllButton none none).1 "document-save-all"
      (by simp [themeNameTable, moreThemeNames]) (by decide),
   (standardIcon_theme_table (symStyle { emptyTheme with icons := ["system"] })
      SP_ComputerIcon none none).2.1 "computer" "system"
      (by simp [themeFallbackNames]) (by decide)⟩

/-- C3: with rtl read from `option->direction` when the option is non-null
and from the application layout direction otherwise, SP_ArrowForward and
SP_CommandLink return `QCommonStyle::standardIcon` of SP_ArrowLeft when rtl
and of SP_ArrowRight otherwise, SP_ArrowBack returns the opposite one, all
three with the same option and widget and without any call to the icon theme
or the renderer; so SP_ArrowBack under left-to-right and SP_ArrowForward
under right-to-left are both the default style's SP_ArrowLeft icon. -/
theorem standardIcon_arrow_flip (S : Style Icon Pixmap)
    (option : Option QStyleOption) (widget : Option QWidget) :
    (S.rtl option = true ↔
        match option with
        | some o => o.direction = LayoutDirection.RightToLeft
        | none => S.appLayoutDirection = LayoutDirection.RightToLeft)
      ∧ S.standardIcon SP_ArrowForward option widget
          = ⟨S.commonStandardIcon (if S.rtl option then SP_ArrowLeft else SP_ArrowRight)
               option widget, []⟩
      ∧ S.standardIcon SP_CommandLink option widget
          = ⟨S.commonStandardIcon (if S.rtl option then SP_ArrowLeft else SP_ArrowRight)
               option widget, []⟩
      ∧ S.standardIcon SP_ArrowBack option widget
          = ⟨S.commonStandardIcon (if S.rtl option then SP_ArrowRight else SP_ArrowLeft)
               option widget, []⟩
      ∧ ∀ (S' : Style Icon Pixmap) (option' : Option QStyleOption),
          S.rtl option = true → S'.rtl option' = false →
          S'.commonStandardIcon SP_ArrowLeft option' widget
            = S.commonStandardIcon SP_ArrowLeft option widget →
          (S'.standardIcon SP_ArrowBack option' widget).icon
            = (S.standardIcon SP_ArrowForward option widget).icon := by
  have hf : S.standardIcon SP_ArrowForward option widget
      = ⟨S.commonStandardIcon (if S.rtl option then SP_ArrowLeft else SP_ArrowRight)
           option widget, []⟩ := by
    apply standardIcon_of_switch
    show (if S.rtl option = true then _ else _) = _
    split_ifs <;> rfl
  have hb : ∀ (S' : Style Icon Pixmap) (o' : Option QStyleOption),
      S'.standardIcon SP_ArrowBack o' widget
      = ⟨S'.commonStandardIcon (if S'.rtl o' then SP_ArrowRight else SP_ArrowLeft)
           o' widget, []⟩ := by
    intro S' o'
    apply standardIcon_of_switch
    show (if S'.rtl o' = true then _ else _) = _
    split_ifs <;> rfl
  refine ⟨?_, hf, ?_, hb S option, ?_⟩
  · cases option <;> simp [Style.rtl]
  · apply standardIcon_of_switch
    show (if S.rtl option = true then _ else _) = _
    split_ifs <;> rfl
  · intro S' o' h1 h2 h3
    rw [hf, hb S' o', h1, h2]
    simpa using h3

theorem renderOrBreak_calls (S : Style Icon Pixmap) (pm : Pixmap) (e : String) (r : QRect) :
    (S.renderOrBreak pm e r).1 = [Call.renderElement e r (S.renderElement pm e r).isSome] := by
  unfold Style.renderOrBreak
  cases S.renderElement pm e r <;> rfl

theorem renderOrBreak_icon (S : Style Icon Pixmap) (pm : Pixmap) (e : String) (r : QRect) :
    (S.renderOrBreak pm e r).2 = (S.renderElement pm e r).map S.iconOfPixmap := by
  unfold Style.renderOrBreak
  cases S.renderElement pm e r <;> rfl

/-- The elements the Dock/TitleBar attempts pass to `renderElement`. -/
theorem dockThenTitleBar_elements (S : Style Icon Pixmap) (pm : Pixmap) (s : Int)
    (tryDock : Bool) (d t : String) :
    renderedElements (S.dockThenTitleBar pm s tryDock d t).1
      = if tryDock then
          (if (S.renderElement pm d ⟨0, 0, s, s⟩).isSome then [d] else [d, t])
        else [t] := by
  unfold Style.dockThenTitleBar
  cases tryDock
  · simp [renderOrBreak_calls, renderedElements]
  · cases h1 : S.renderElement pm d ⟨0, 0, s, s⟩ <;>
      cases h2 : S.renderElement pm t ⟨0, 0, s, s⟩ <;>
      simp [renderedElements]

theorem noMenuIcon_iff (S : Style Icon Pixmap)
    (option : Option QStyleOption) (widget : Option QWidget) :
    S.noMenuIcon option widget = true ↔
      (option = none ∧ isMdiSubWindow widget = true
        ∧ S.enoughContrast (S.getFromRGBA (S.getLabelSpec "MenuItem").normalColor)
            (S.getFromRGBA (S.getLabelSpec "TitleBar").focusColor) = true) := by
  simp [Style.noMenuIcon, Option.isNone_iff_eq_none, and_assoc]

/-- The four bodies with the MDI test, when the test succeeds. -/
theorem mdiTest_fires (S : Style Icon Pixmap) (k : StandardPixmap)
    (option : Option QStyleOption) (widget : Option QWidget)
    (hk : k ∈ [SP_TitleBarMinButton, SP_TitleBarMaxButton, SP_TitleBarNormalButton,
      SP_TitleBarCloseButton])
    (h : S.noMenuIcon option widget = true) :
    S.standardIconSwitch k option widget
      = ([], some (S.iconOfPixmap (S.transparentPixmap
          ⟨S.titleBarButtonSide option widget, S.titleBarButtonSide option widget⟩))) := by
  simp only [List.mem_cons, List.mem_nil_iff, or_false] at hk
  rcases hk with rfl | rfl | rfl | rfl
  · show S.titleBarMinButton option widget = _
    simp [Style.titleBarMinButton, h]
  · show S.titleBarMaxButton option widget = _
    simp [Style.titleBarMaxButton, h]
  · show S.titleBarNormalButton option widget = _
    simp [Style.titleBarNormalButton, h]
  · show S.closeButton SP_TitleBarCloseButton option widget = _
    have : (SP_TitleBarCloseButton == SP_TitleBarCloseButton) = true := rfl
    simp [Style.closeButton, h, this]

/-- The four bodies with the MDI test, when the test fails: something is
passed to `renderElement`. -/
theorem mdiTest_skipped (S : Style Icon Pixmap) (k : StandardPixmap)
    (option : Option QStyleOption) (widget : Option QWidget)
    (hk : k ∈ [SP_TitleBarMinButton, SP_TitleBarMaxButton, SP_TitleBarNormalButton,
      SP_TitleBarCloseButton])
    (h : S.noMenuIcon option widget = false) :
    renderedElements (S.standardIconSwitch k option widget).1 ≠ [] := by
  simp only [List.mem_cons, List.mem_nil_iff, or_false] at hk
  rcases hk with rfl | rfl | rfl | rfl
  · show renderedElements (S.titleBarMinButton option widget).1 ≠ []
    simp [Style.titleBarMinButton, h, renderOrBreak_calls, renderedElements]
  · show renderedElements (S.titleBarMaxButton option widget).1 ≠ []
    simp [Style.titleBarMaxButton, h, renderOrBreak_calls, renderedElements]
  · show renderedElements (S.titleBarNormalButton option widget).1 ≠ []
    simp only [Style.titleBarNormalButton, h, Bool.false_eq_true, if_false,
      dockThenTitleBar_elements]
    split_ifs <;> simp
  · show renderedElements (S.closeButton SP_TitleBarCloseButton option widget).1 ≠ []
    simp only [Style.closeButton, h, Bool.and_false, Bool.false_eq_true, if_false,
      dockThenTitleBar_elements]
    split_ifs <;> simp

/-- C4: for SP_TitleBarMinButton, SP_TitleBarMaxButton, SP_TitleBarNormalButton
and SP_TitleBarCloseButton, when option is null, the widget is a
`QMdiSubWindow` and `enoughContrast` holds between the MenuItem label's normal
colour and the TitleBar label's focus colour, the result is the icon of the
transparent s-by-s pixmap and `renderElement` is not called; when that
conjunction fails `renderElement` is called; and for SP_DockWidgetCloseButton
and SP_TitleBarMenuButton `renderElement` is called whatever the option,
widget and colours are. -/
theorem standardIcon_mdi_shortcut (S : Style Icon Pixmap)
    (option : Option QStyleOption) (widget : Option QWidget) :
    (∀ k ∈ [SP_TitleBarMinButton, SP_TitleBarMaxButton, SP_TitleBarNormalButton,
        SP_TitleBarCloseButton],
        ((option = none ∧ isMdiSubWindow widget = true
            ∧ S.enoughContrast (S.getFromRGBA (S.getLabelSpec "MenuItem").normalColor)
                (S.getFromRGBA (S.getLabelSpec "TitleBar").focusColor) = true) →
          S.standardIcon k option widget
            = ⟨S.iconOfPixmap (S.transparentPixmap
                ⟨S.titleBarButtonSide option widget, S.titleBarButtonSide option widget⟩), []⟩)
        ∧ (¬ (option = none ∧ isMdiSubWindow widget = true
            ∧ S.enoughContrast (S.getFromRGBA (S.getLabelSpec "MenuItem").normalColor)
                (S.getFromRGBA (S.getLabelSpec "TitleBar").focusColor) = true) →
          renderedElements (S.standardIcon k option widget).calls ≠ []))
      ∧ (∀ k ∈ [SP_DockWidgetCloseButton, SP_TitleBarMenuButton],
          renderedElements (S.standardIcon k option widget).calls ≠ []) := by
  refine ⟨fun k hk => ⟨fun h => ?_, fun h => ?_⟩, fun k hk => ?_⟩
  · exact standardIcon_of_switch S _ _ _ _ _
      (mdiTest_fires S k option widget hk ((noMenuIcon_iff S option widget).2 h))
  · rw [standardIcon_calls]
    apply mdiTest_skipped S k option widget hk
    rw [← noMenuIcon_iff] at h
    simpa using h
  · rw [standardIcon_calls]
    simp only [List.mem_cons, List.mem_nil_iff, or_false] at hk
    rcases hk with rfl | rfl
    · show renderedElements (S.closeButton SP_DockWidgetCloseButton option widget).1 ≠ []
      have : (SP_DockWidgetCloseButton == SP_TitleBarCloseButton) = false := rfl
      simp only [Style.closeButton, this, Bool.false_and, Bool.false_eq_true, if_false,
        dockThenTitleBar_elements]
      split_ifs <;> simp
    · show renderedElements (S.titleBarMenuButton option widget).1 ≠ []
      simp [Style.titleBarMenuButton, renderOrBreak_calls, renderedElements]

theorem standardIcon_mdi_shortcut_witness :
    (symStyle emptyTheme).standardIcon SP_TitleBarCloseButton none (some mdiWidget)
      = ⟨SymIcon.ofPixmap (SymPixmap.transparent
          ⟨(symStyle emptyTheme).titleBarButtonSide none (some mdiWidget),
           (symStyle emptyTheme).titleBarButtonSide none (some mdiWidget)⟩), []⟩ :=
  ((standardIcon_mdi_shortcut (symStyle emptyTheme) none (some mdiWidget)).1
    SP_TitleBarCloseButton (by simp)).1 ⟨rfl, by decide, by decide⟩

/-- The prefix choice of the horizontal case, for a given label colour. -/
theorem horizontal_prefix (S : Style Icon Pixmap) (E : String) (col : QColor) (flat : Bool)
    (hflat : flat = true ↔ ∃ r, S.themeRndr_ = some r ∧ r.isValid = true
      ∧ S.enoughContrast col (S.standardPalette.color ColorGroup.Active ColorRole.WindowText)
          = true
      ∧ r.elementExists ("flat-" ++ E ++ "-down-normal") = true) :
    (match S.themeRndr_ with
      | some themeRndr =>
        if themeRndr.isValid then
          if S.enoughContrast col (S.standardPalette.color ColorGroup.Active ColorRole.WindowText)
              && themeRndr.elementExists ("flat-" ++ E ++ "-down-normal") then
            "flat-" ++ E
          else E
        else E
      | none => E) = (if flat then "flat-" else "") ++ E := by
  cases flat
  · have h := hflat.not.1 (by simp)
    rcases hr : S.themeRndr_ with _ | r
    · simp
    · simp only [hr, not_exists, not_and] at h
      have h := h r rfl
      by_cases hv : r.isValid = true
      · have h := h hv
        by_cases hc : S.enoughContrast col
            (S.standardPalette.color ColorGroup.Active ColorRole.WindowText) = true
        · have h := h hc
          simp [hv, hc, h]
        · simp [hv, hc]
      · simp [hv]
  · obtain ⟨r, hr, hv, hc, he⟩ := hflat.1 rfl
    simp [hr, hv, hc, he]

/-- C6: the single element passed to `renderElement` for
SP_ToolBarHorizontalExtensionButton is P + E + D + "-normal", where E is the
IndicatorArrow element, D is "-left" when rtl and "-right" otherwise, and P
is "flat-" exactly when the theme renderer exists and is valid,
`enoughContrast` holds between the chosen label colour and the standard
palette's active WindowText colour, and the renderer has the element
"flat-" + E + "-down-normal" (P is empty otherwise); the chosen colour is the
Toolbar label's normal colour when the widget is null, is a stylable toolbar
or has a positive merged toolbar height, and the MenuBar label's normal
colour for every other widget. -/
theorem standardIcon_horizontal_element (S : Style Icon Pixmap)
    (option : Option QStyleOption) (widget : Option QWidget) (col : QColor) (flat : Bool)
    (htoolbar : (widget = none ∨ ∃ w, widget = some w
        ∧ (S.isStylableToolbar w = true ∨ 0 < S.mergedToolbarHeight w)) →
      col = S.getFromRGBA (S.getLabelSpec "Toolbar").normalColor)
    (hmenubar : ¬ (widget = none ∨ ∃ w, widget = some w
        ∧ (S.isStylableToolbar w = true ∨ 0 < S.mergedToolbarHeight w)) →
      col = S.getFromRGBA (S.getLabelSpec "MenuBar").normalColor)
    (hflat : flat = true ↔ ∃ r, S.themeRndr_ = some r ∧ r.isValid = true
      ∧ S.enoughContrast col (S.standardPalette.color ColorGroup.Active ColorRole.WindowText)
          = true
      ∧ r.elementExists ("flat-" ++ (S.getIndicatorSpec "IndicatorArrow").element
          ++ "-down-normal") = true) :
    renderedElements (S.standardIcon SP_ToolBarHorizontalExtensionButton option widget).calls
      = [(if flat then "flat-" else "") ++ (S.getIndicatorSpec "IndicatorArrow").element
          ++ (if S.rtl option then "-left" else "-right") ++ "-normal"] := by
  rw [standardIcon_calls]
  show renderedElements (S.toolBarHorizontalExtensionButton option widget).1 = _
  unfold Style.toolBarHorizontalExtensionButton
  simp only [renderOrBreak_calls, renderedElements]
  rw [← horizontal_prefix S _ col flat hflat]
  cases widget with
  | none =>
    rw [htoolbar (Or.inl rfl)]
  | some w =>
    by_cases h : S.isStylableToolbar w = true ∨ 0 < S.mergedToolbarHeight w
    · rw [htoolbar (Or.inr ⟨w, rfl, h⟩)]
      have : (S.isStylableToolbar w || decide (S.mergedToolbarHeight w > 0)) = true := by
        rcases h with h | h <;> simp [h]
      simp only [this, if_true]
    · rw [hmenubar (by simpa using h)]
      have : (S.isStylableToolbar w || decide (S.mergedToolbarHeight w > 0)) = false := by
        simp only [not_or] at h
        simp [h.1, h.2]
      simp only [this, Bool.false_eq_true, if_false]

theorem standardIcon_horizontal_element_witness :
    renderedElements
        ((symStyle flatTheme).standardIcon SP_ToolBarHorizontalExtensionButton
          (some (plainOption LayoutDirection.RightToLeft 0 false)) (some mdiWidget)).calls
      = ["flat-arrow-left-normal"] :=
  standardIcon_horizontal_element (symStyle flatTheme)
    (some (plainOption LayoutDirection.RightToLeft 0 false)) (some mdiWidget)
    (symColor "light") true
    (by intro h; simp [symStyle] at h)
    (by intro _; rfl)
    ⟨fun _ => ⟨_, rfl, rfl, by decide, by decide⟩, fun _ => rfl⟩

theorem append_ne_flat (E t : String) : E ++ t ≠ "flat-" ++ E ++ t := by
  intro h
  have := congrArg String.length h
  simp [String.length_append] at this
  exact absurd this (by decide)

/-- The prefix choice of the vertical case. -/
theorem vertical_prefix (S : Style Icon Pixmap) (E : String) (flat : Bool)
    (hflat : flat = true ↔ (S.hspec_.style_vertical_toolbars = true
      ∧ (∃ r, S.themeRndr_ = some r ∧ r.isValid = true)
      ∧ S.enoughContrast (S.getFromRGBA (S.getLabelSpec "Toolbar").normalColor)
          (S.standardPalette.color ColorGroup.Active ColorRole.WindowText) = true)) :
    (if S.hspec_.style_vertical_toolbars
        && (match S.themeRndr_ with
            | some themeRndr => themeRndr.isValid
            | none => false)
        && S.enoughContrast (S.getFromRGBA (S.getLabelSpec "Toolbar").normalColor)
             (S.standardPalette.color ColorGroup.Active ColorRole.WindowText) then
      "flat-" ++ E
    else E) = (if flat then "flat-" else "") ++ E := by
  cases flat
  · have h := hflat.not.1 (by simp)
    rcases hr : S.themeRndr_ with _ | r
    · simp
    · simp only [hr, not_and, Option.some.injEq, exists_eq_left'] at h
      by_cases h1 : S.hspec_.style_vertical_toolbars = true
      · by_cases h2 : r.isValid = true
        · have := h h1 h2
          simp [h1, h2, this]
        · simp [h2]
      · simp [h1]
  · obtain ⟨h1, ⟨r, hr, hv⟩, hc⟩ := hflat.1 rfl
    simp [h1, hr, hv, hc]

/-- C7: the single element passed to `renderElement` for
SP_ToolBarVerticalExtensionButton is P + E + "-down-normal", whatever the
option and the application layout direction are, where E is the
IndicatorArrow element and P is "flat-" exactly when style_vertical_toolbars
is set, the theme renderer exists and is valid, and `enoughContrast` holds
between the Toolbar label's normal colour and the standard palette's active
WindowText colour; the existence of the flat element is not checked: when
the three conditions hold and rendering the flat element fails, the result is
the default style's icon of the same kind, option and widget, and the
non-flat element is not tried. -/
theorem standardIcon_vertical_element (S : Style Icon Pixmap)
    (option : Option QStyleOption) (widget : Option QWidget) (flat : Bool)
    (hflat : flat = true ↔ (S.hspec_.style_vertical_toolbars = true
      ∧ (∃ r, S.themeRndr_ = some r ∧ r.isValid = true)
      ∧ S.enoughContrast (S.getFromRGBA (S.getLabelSpec "Toolbar").normalColor)
          (S.standardPalette.color ColorGroup.Active ColorRole.WindowText) = true)) :
    renderedElements (S.standardIcon SP_ToolBarVerticalExtensionButton option widget).calls
        = [(if flat then "flat-" else "") ++ (S.getIndicatorSpec "IndicatorArrow").element
            ++ "-down-normal"]
      ∧ (∀ (d : LayoutDirection) (option' : Option QStyleOption),
          renderedElements (({ S with appLayoutDirection := d }).standardIcon
              SP_ToolBarVerticalExtensionButton option' widget).calls
            = renderedElements
                (S.standardIcon SP_ToolBarVerticalExtensionButton option widget).calls)
      ∧ (flat = true →
          S.renderElement
              (S.transparentPixmap
                ⟨qRound (S.pixelRatio widget * S.pixelRatio widget
                    * ((S.getIndicatorSpec "IndicatorArrow").size : ℚ)),
                 qRound (S.pixelRatio widget * S.pixelRatio widget
                    * ((S.getIndicatorSpec "IndicatorArrow").size : ℚ))⟩)
              ("flat-" ++ (S.getIndicatorSpec "IndicatorArrow").element ++ "-down-normal")
              ⟨0, 0, qRound (S.pixelRatio widget * S.pixelRatio widget
                    * ((S.getIndicatorSpec "IndicatorArrow").size : ℚ)),
                 qRound (S.pixelRatio widget * S.pixelRatio widget
                    * ((S.getIndicatorSpec "IndicatorArrow").size : ℚ))⟩ = none →
          (S.standardIcon SP_ToolBarVerticalExtensionButton option widget).icon
              = S.commonStandardIcon SP_ToolBarVerticalExtensionButton option widget
            ∧ (S.getIndicatorSpec "IndicatorArrow").element ++ "-down-normal"
                ∉ renderedElements
                    (S.standardIcon SP_ToolBarVerticalExtensionButton option widget).calls) := by
  have hcalls : renderedElements
      (S.standardIcon SP_ToolBarVerticalExtensionButton option widget).calls
        = [(if flat then "flat-" else "") ++ (S.getIndicatorSpec "IndicatorArrow").element
            ++ "-down-normal"] := by
    rw [standardIcon_calls]
    show renderedElements (S.toolBarVerticalExtensionButton widget).1 = _
    unfold Style.toolBarVerticalExtensionButton
    simp only [renderOrBreak_calls, renderedElements]
    rw [← vertical_prefix S _ flat hflat]
  refine ⟨hcalls, fun d option' => ?_, fun hf hr => ⟨?_, ?_⟩⟩
  · rw [standardIcon_calls, standardIcon_calls]
    rfl
  · rw [standardIcon_icon]
    show ((S.toolBarVerticalExtensionButton widget).2).getD _ = _
    unfold Style.toolBarVerticalExtensionButton
    obtain ⟨h1, ⟨r, hr', hv⟩, hc⟩ := hflat.1 hf
    simp only [renderOrBreak_icon, h1, hr', hv, hc, Bool.and_self, if_true]
    rw [hr]
    rfl
  · rw [hcalls, hf]
    simp only [if_true, List.mem_singleton]
    exact append_ne_flat _ _

theorem standardIcon_vertical_element_witness :
    renderedElements
          ((symStyle verticalTheme).standardIcon SP_ToolBarVerticalExtensionButton
            none none).calls
        = ["flat-arrow-down-normal"]
      ∧ ((symStyle verticalTheme).standardIcon SP_ToolBarVerticalExtensionButton
            none none).icon
          = SymIcon.common SP_ToolBarVerticalExtensionButton none none :=
  ⟨(standardIcon_vertical_element (symStyle verticalTheme) none none true
      ⟨fun _ => ⟨rfl, ⟨_, rfl, rfl⟩, rfl⟩, fun _ => rfl⟩).1,
   ((standardIcon_vertical_element (symStyle verticalTheme) none none true
      ⟨fun _ => ⟨rfl, ⟨_, rfl, rfl⟩, rfl⟩, fun _ => rfl⟩).2.2 rfl rfl).1⟩

theorem lineEditClearLookup_eq (S : Style Icon Pixmap)
    (option : Option QStyleOption) (widget : Option QWidget) :
    S.lineEditClearLookup option widget
      = if S.hasThemeIcon (clearButtonFirstName S option widget) then
          ([Call.hasThemeIcon (clearButtonFirstName S option widget) true,
            Call.fromTheme (clearButtonFirstName S option widget)
              (S.isNull (S.fromTheme (clearButtonFirstName S option widget)))],
           S.fromTheme (clearButtonFirstName S option widget))
        else if S.hasThemeIcon "edit-clear" then
          ([Call.hasThemeIcon (clearButtonFirstName S option widget) false,
            Call.hasThemeIcon "edit-clear" true,
            Call.fromTheme "edit-clear" (S.isNull (S.fromTheme "edit-clear"))],
           S.fromTheme "edit-clear")
        else
          ([Call.hasThemeIcon (clearButtonFirstName S option widget) false,
            Call.hasThemeIcon "edit-clear" false], S.nullIcon) := by
  have hname : (if (match option with
        | some _ => S.rtl option
        | none =>
          match widget with
          | some w => w.layoutDirection == LayoutDirection.RightToLeft
          | none => S.rtl option) = true
      then "edit-clear-locationbar-ltr" else "edit-clear-locationbar-rtl")
      = clearButtonFirstName S option widget := by
    unfold clearButtonFirstName clearButtonDirection
    rcases option with _ | o <;> rcases widget with _ | w <;> simp [Style.rtl]
  rw [← hname]
  rfl

/-- C8: for SP_LineEditClearButton the direction used is `option->direction`
when the option is non-null, otherwise the widget's layout direction when
the widget is non-null, otherwise the application layout direction; when it
is right-to-left the first theme name tried is edit-clear-locationbar-ltr and
otherwise edit-clear-locationbar-rtl; when the theme lacks that name,
edit-clear is tried, and nothing else is asked of the theme; when no
non-null icon is obtained the result is the default style's icon of
SP_LineEditClearButton for the same option and widget. -/
theorem standardIcon_clear_button_names (S : Style Icon Pixmap)
    (option : Option QStyleOption) (widget : Option QWidget) :
    (S.standardIcon SP_LineEditClearButton option widget).calls
        = (if S.hasThemeIcon (clearButtonFirstName S option widget) then
            [Call.hasThemeIcon (clearButtonFirstName S option widget) true,
             Call.fromTheme (clearButtonFirstName S option widget)
               (S.isNull (S.fromTheme (clearButtonFirstName S option widget)))]
          else if S.hasThemeIcon "edit-clear" then
            [Call.hasThemeIcon (clearButtonFirstName S option widget) false,
             Call.hasThemeIcon "edit-clear" true,
             Call.fromTheme "edit-clear" (S.isNull (S.fromTheme "edit-clear"))]
          else
            [Call.hasThemeIcon (clearButtonFirstName S option widget) false,
             Call.hasThemeIcon "edit-clear" false])
      ∧ ((∀ name, Call.fromTheme name false
            ∉ (S.standardIcon SP_LineEditClearButton option widget).calls) →
          (S.standardIcon SP_LineEditClearButton option widget).icon
            = S.commonStandardIcon SP_LineEditClearButton option widget) := by
  have hcalls : (S.standardIcon SP_LineEditClearButton option widget).calls
      = (S.lineEditClearLookup option widget).1 := by
    rw [standardIcon_calls]
    rfl
  constructor
  · rw [hcalls, lineEditClearLookup_eq]
    split_ifs <;> rfl
  · intro h
    rw [hcalls] at h
    have hnone : (S.standardIconSwitch SP_LineEditClearButton option widget).2 = none := by
      apply lineEditClearButton_failed S option widget
      intro c hc
      have hc' : c ∈ (S.lineEditClearLookup option widget).1 := hc
      cases c with
      | renderElement e r ok =>
        rw [lineEditClearLookup_eq] at hc'
        split_ifs at hc' <;> simp at hc'
      | hasThemeIcon n f => rfl
      | fromTheme n null =>
        cases null with
        | true => rfl
        | false => exact absurd hc' (h n)
    rw [standardIcon_icon, hnone]
    rfl

theorem stateStatus_eq (state : Nat) : stateStatus state = statusOfState state := by
  unfold stateStatus statusOfState
  by_cases h1 : state &&& State_Enabled = 0 <;>
    by_cases h2 : state &&& State_Sunken = 0 <;>
    by_cases h3 : state &&& State_MouseOver = 0 <;> simp [h1, h2, h3]

/-- The status chosen in the close and restore cases. -/
theorem buttonStatus_eq (option : Option QStyleOption) :
    (match option with
      | some o => if o.isButton then stateStatus o.state else "normal"
      | none => "normal") = buttonStatus option := by
  unfold buttonStatus
  cases option <;> simp [stateStatus_eq]

/-- The elements the close case passes to `renderElement`. -/
theorem closeButton_rendered (S : Style Icon Pixmap) (k : StandardPixmap)
    (option : Option QStyleOption) (widget : Option QWidget) :
    renderedElements (S.closeButton k option widget).1
      = if (k == SP_TitleBarCloseButton && S.noMenuIcon option widget) = true then []
        else if (k == SP_DockWidgetCloseButton || isDockWidget widget) = true then
          (if (S.renderElement
                (S.transparentPixmap
                  ⟨S.titleBarButtonSide option widget, S.titleBarButtonSide option widget⟩)
                ((S.getIndicatorSpec "Dock").element ++ "-close")
                ⟨0, 0, S.titleBarButtonSide option widget,
                  S.titleBarButtonSide option widget⟩).isSome = true
           then [(S.getIndicatorSpec "Dock").element ++ "-close"]
           else [(S.getIndicatorSpec "Dock").element ++ "-close",
                 (S.getIndicatorSpec "TitleBar").element ++ "-close-" ++ buttonStatus option])
        else [(S.getIndicatorSpec "TitleBar").element ++ "-close-" ++ buttonStatus option] := by
  rw [← buttonStatus_eq]
  unfold Style.closeButton
  simp only
  split_ifs <;> simp_all [renderedElements, dockThenTitleBar_elements]

/-- The elements the restore case passes to `renderElement`. -/
theorem normalButton_rendered (S : Style Icon Pixmap)
    (option : Option QStyleOption) (widget : Option QWidget) :
    renderedElements (S.titleBarNormalButton option widget).1
      = if S.noMenuIcon option widget = true then []
        else if isDockWidget widget = true then
          (if (S.renderElement
                (S.transparentPixmap
                  ⟨S.titleBarButtonSide option widget, S.titleBarButtonSide option widget⟩)
                ((S.getIndicatorSpec "Dock").element ++ "-restore")
                ⟨0, 0, S.titleBarButtonSide option widget,
                  S.titleBarButtonSide option widget⟩).isSome = true
           then [(S.getIndicatorSpec "Dock").element ++ "-restore"]
           else [(S.getIndicatorSpec "Dock").element ++ "-restore",
                 (S.getIndicatorSpec "TitleBar").element ++ "-restore-" ++ buttonStatus option])
        else [(S.getIndicatorSpec "TitleBar").element ++ "-restore-" ++ buttonStatus option] := by
  rw [← buttonStatus_eq]
  unfold Style.titleBarNormalButton
  simp only
  split_ifs <;> simp_all [renderedElements, dockThenTitleBar_elements]

/-- C9: the element rendered for SP_TitleBarMinButton is the TitleBar element
+ "-minimize-" + status, with status "normal" without an option and
otherwise "disabled" when State_Enabled is not set, else "pressed" if
State_Sunken is set, else "focused" if State_MouseOver is set, else "normal"
(nothing is rendered when the MDI shortcut fires); for the close and restore
buttons the TitleBar element + "-close-" (or "-restore-") + status is
rendered whenever the shortcut does not fire and the Dock element is not
tried or fails, after the Dock element when that was tried, with the status
of the state when the option is a `QStyleOptionButton` and "normal" for every
other option; for SP_TitleBarMaxButton and SP_TitleBarMenuButton the status
is "normal" whatever the option's state. -/
theorem standardIcon_status_suffix (S : Style Icon Pixmap)
    (option : Option QStyleOption) (widget : Option QWidget) :
    renderedElements (S.standardIcon SP_TitleBarMinButton option widget).calls
        = (if mdiShortcut S SP_TitleBarMinButton option widget then []
           else [(S.getIndicatorSpec "TitleBar").element ++ "-minimize-"
                  ++ minimizeStatus option])
      ∧ renderedElements (S.standardIcon SP_DockWidgetCloseButton option widget).calls
          = (if (S.renderElement
                  (S.transparentPixmap
                    ⟨S.titleBarButtonSide option widget, S.titleBarButtonSide option widget⟩)
                  ((S.getIndicatorSpec "Dock").element ++ "-close")
                  ⟨0, 0, S.titleBarButtonSide option widget,
                    S.titleBarButtonSide option widget⟩).isSome = true
             then [(S.getIndicatorSpec "Dock").element ++ "-close"]
             else [(S.getIndicatorSpec "Dock").element ++ "-close",
                   (S.getIndicatorSpec "TitleBar").element ++ "-close-"
                     ++ buttonStatus option])
      ∧ renderedElements (S.standardIcon SP_TitleBarCloseButton option widget).calls
          = (if mdiShortcut S SP_TitleBarCloseButton option widget = true then []
             else if isDockWidget widget = true then
               (if (S.renderElement
                     (S.transparentPixmap
                       ⟨S.titleBarButtonSide option widget,
                        S.titleBarButtonSide option widget⟩)
                     ((S.getIndicatorSpec "Dock").element ++ "-close")
                     ⟨0, 0, S.titleBarButtonSide option widget,
                       S.titleBarButtonSide option widget⟩).isSome = true
                then [(S.getIndicatorSpec "Dock").element ++ "-close"]
                else [(S.getIndicatorSpec "Dock").element ++ "-close",
                      (S.getIndicatorSpec "TitleBar").element ++ "-close-"
                        ++ buttonStatus option])
             else [(S.getIndicatorSpec "TitleBar").element ++ "-close-"
                     ++ buttonStatus option])
      ∧ renderedElements (S.standardIcon SP_TitleBarNormalButton option widget).calls
          = (if mdiShortcut S SP_TitleBarNormalButton option widget = true then []
             else if isDockWidget widget = true then
               (if (S.renderElement
                     (S.transparentPixmap
                       ⟨S.titleBarButtonSide option widget,
                        S.titleBarButtonSide option widget⟩)
                     ((S.getIndicatorSpec "Dock").element ++ "-restore")
                     ⟨0, 0, S.titleBarButtonSide option widget,
                       S.titleBarButtonSide option widget⟩).isSome = true
                then [(S.getIndicatorSpec "Dock").element ++ "-restore"]
                else [(S.getIndicatorSpec "Dock").element ++ "-restore",
                      (S.getIndicatorSpec "TitleBar").element ++ "-restore-"
                        ++ buttonStatus option])
             else [(S.getIndicatorSpec "TitleBar").element ++ "-restore-"
                     ++ buttonStatus option])
      ∧ renderedElements (S.standardIcon SP_TitleBarMaxButton option widget).calls
          = (if mdiShortcut S SP_TitleBarMaxButton option widget then []
             else [(S.getIndicatorSpec "TitleBar").element ++ "-maximize-normal"])
      ∧ renderedElements (S.standardIcon SP_TitleBarMenuButton option widget).calls
          = [(S.getIndicatorSpec "TitleBar").element ++ "-menu-normal"] := by
  refine ⟨?_, ?_, ?_, ?_, ?_, ?_⟩
  · rw [standardIcon_calls, mdiShortcut_eq_noMenuIcon S SP_TitleBarMinButton option widget rfl]
    show renderedElements (S.titleBarMinButton option widget).1 = _
    unfold Style.titleBarMinButton minimizeStatus
    simp only
    split_ifs
    · rfl
    · rw [renderOrBreak_calls]
      cases option <;> simp [renderedElements, stateStatus_eq]
  · rw [standardIcon_calls]
    show renderedElements (S.closeButton SP_DockWidgetCloseButton option widget).1 = _
    rw [closeButton_rendered]
    have h1 : (SP_DockWidgetCloseButton == SP_TitleBarCloseButton) = false := rfl
    have h2 : (SP_DockWidgetCloseButton == SP_DockWidgetCloseButton) = true := rfl
    simp only [h1, h2, Bool.false_and, Bool.true_or, Bool.false_eq_true, if_false, if_true]
  · rw [standardIcon_calls,
      mdiShortcut_eq_noMenuIcon S SP_TitleBarCloseButton option widget rfl]
    show renderedElements (S.closeButton SP_TitleBarCloseButton option widget).1 = _
    rw [closeButton_rendered]
    have h1 : (SP_TitleBarCloseButton == SP_TitleBarCloseButton) = true := rfl
    have h2 : (SP_TitleBarCloseButton == SP_DockWidgetCloseButton) = false := rfl
    simp only [h1, h2, Bool.true_and, Bool.false_or]
  · rw [standardIcon_calls,
      mdiShortcut_eq_noMenuIcon S SP_TitleBarNormalButton option widget rfl]
    exact normalButton_rendered S option widget
  · rw [standardIcon_calls, mdiShortcut_eq_noMenuIcon S SP_TitleBarMaxButton option widget rfl]
    show renderedElements (S.titleBarMaxButton option widget).1 = _
    unfold Style.titleBarMaxButton
    simp only
    split_ifs
    · rfl
    · rw [renderOrBreak_calls]
      rfl
  · rw [standardIcon_calls]
    show renderedElements (S.titleBarMenuButton option widget).1 = _
    unfold Style.titleBarMenuButton
    simp only
    rw [renderOrBreak_calls]
    rfl

theorem dockThenTitleBar_outcome (S : Style Icon Pixmap) (pm : Pixmap) (s : Int)
    (tryDock : Bool) (d t : String) (fallback : Icon) :
    (⟨((S.dockThenTitleBar pm s tryDock d t).2).getD fallback,
      (S.dockThenTitleBar pm s tryDock d t).1⟩ : Outcome Icon)
      = dockPrecedence S pm ⟨0, 0, s, s⟩ tryDock d t fallback := by
  unfold Style.dockThenTitleBar dockPrecedence Style.renderOrBreak
  cases tryDock <;>
    cases S.renderElement pm d ⟨0, 0, s, s⟩ <;>
    cases S.renderElement pm t ⟨0, 0, s, s⟩ <;> rfl

theorem standardIcon_eta (S : Style Icon Pixmap) (k : StandardPixmap)
    (option : Option QStyleOption) (widget : Option QWidget) :
    S.standardIcon k option widget
      = ⟨((S.standardIconSwitch k option widget).2).getD (S.commonStandardIcon k option widget),
         (S.standardIconSwitch k option widget).1⟩ := by
  rw [← standardIcon_icon, ← standardIcon_calls]

/-- C10: when the MDI contrast shortcut does not fire, for
SP_DockWidgetCloseButton (any widget) and for SP_TitleBarCloseButton with a
`QDockWidget` widget the Dock element + "-close" is rendered first and the
TitleBar element + "-close-" + status only if that fails; for
SP_TitleBarCloseButton with another widget only the TitleBar element is
tried; SP_TitleBarNormalButton does the same with "-restore", trying the
Dock element for a `QDockWidget` widget only; the rendered pixmap is returned
when one of the attempted renders succeeds, and the default style's icon of
the original kind, option and widget otherwise. -/
theorem standardIcon_dock_precedence (S : Style Icon Pixmap) (k : StandardPixmap)
    (option : Option QStyleOption) (widget : Option QWidget)
    (tryDock : Bool) (dockSuffix titleBarInfix : String)
    (hk : (k, tryDock, dockSuffix, titleBarInfix) ∈
      [(SP_DockWidgetCloseButton, true, "-close", "-close-"),
       (SP_TitleBarCloseButton, isDockWidget widget, "-close", "-close-"),
       (SP_TitleBarNormalButton, isDockWidget widget, "-restore", "-restore-")])
    (hmdi : mdiShortcut S k option widget = false) :
    S.standardIcon k option widget
      = dockPrecedence S
          (S.transparentPixmap
            ⟨S.titleBarButtonSide option widget, S.titleBarButtonSide option widget⟩)
          ⟨0, 0, S.titleBarButtonSide option widget, S.titleBarButtonSide option widget⟩
          tryDock
          ((S.getIndicatorSpec "Dock").element ++ dockSuffix)
          ((S.getIndicatorSpec "TitleBar").element ++ titleBarInfix ++ buttonStatus option)
          (S.commonStandardIcon k option widget) := by
  rw [standardIcon_eta, ← dockThenTitleBar_outcome, ← buttonStatus_eq]
  simp only [List.mem_cons, Prod.mk.injEq, List.mem_nil_iff, or_false] at hk
  rcases hk with ⟨rfl, rfl, rfl, rfl⟩ | ⟨rfl, rfl, rfl, rfl⟩ | ⟨rfl, rfl, rfl, rfl⟩
  · rfl
  · have h : S.noMenuIcon option widget = false := hmdi
    show (⟨((S.closeButton SP_TitleBarCloseButton option widget).2).getD _,
      (S.closeButton SP_TitleBarCloseButton option widget).1⟩ : Outcome Icon) = _
    unfold Style.closeButton
    simp only [h, Bool.and_false, Bool.false_eq_true, if_false]
    try rfl
  · have h : S.noMenuIcon option widget = false := hmdi
    show (⟨((S.titleBarNormalButton option widget).2).getD _,
      (S.titleBarNormalButton option widget).1⟩ : Outcome Icon) = _
    unfold Style.titleBarNormalButton
    simp only [h, Bool.false_eq_true, if_false]
    try rfl

theorem standardIcon_dock_precedence_witness :
    (SP_TitleBarCloseButton, isDockWidget (some dockWidget), "-close", "-close-") ∈
        [(SP_DockWidgetCloseButton, true, "-close", "-close-"),
         (SP_TitleBarCloseButton, isDockWidget (some dockWidget), "-close", "-close-"),
         (SP_TitleBarNormalButton, isDockWidget (some dockWidget), "-restore", "-restore-")]
      ∧ mdiShortcut (symStyle closeTheme) SP_TitleBarCloseButton none (some dockWidget) = false
      ∧ (((symStyle closeTheme).standardIcon SP_TitleBarCloseButton none
              (some dockWidget)).calls.map Call.failed = [true, false]
          ∧ renderedElements ((symStyle closeTheme).standardIcon SP_TitleBarCloseButton none
              (some dockWidget)).calls = ["dock-close", "title-close-normal"]) :=
  ⟨by simp, by decide, by
    rw [standardIcon_dock_precedence (symStyle closeTheme) SP_TitleBarCloseButton none
      (some dockWidget) (isDockWidget (some dockWidget)) "-close" "-close-" (by simp)
      (by decide)]
    decide⟩

end Properties

end Kvantum
